import Mathlib

/-!
# Faro Fino bot — verification of the discovery-and-deduplication engine

Shallow embedding of `bot.py` (news-monitoring Telegram bot).  Network and
filesystem effects are modelled as explicit inputs:

* a fetched page's extracted metadata becomes an oracle `Url → Option Metadados`
  (`none` = fetch/extraction failure);
* the news-feed search becomes an oracle answer list (`none` = the whole source
  raised, an inner `none` = one keyword query raised);
* `urlparse` is modelled by a `Url` record carrying the raw string together
  with its `netloc` and `path` components; Python dict keys compare by the raw
  string;
* timestamps (`datetime`) are integers counted in seconds, calendar dates
  (`date`) are integers counted in days;
* Python's `dict` is insertion-ordered, so the notification history is a list
  of key/value pairs; `sorted(..., reverse=True)` is a stable sort, whose
  output is uniquely determined, and is modelled by `List.insertionSort`.

All definitions follow the Python source (`bot.py`); constants keep the values
of the source.
-/

namespace FaroFino

/-- Seconds in one day (used to convert the day-counted retention constants to
the second-counted notification timestamps). -/
def segundosPorDia : Int := 86400

/-- `DIAS_FILTRO_NOTICIAS = 3` — recency window in days. -/
def DIAS_FILTRO_NOTICIAS : Int := 3

/-- `DIAS_HISTORICO_LINKS = 3` — history retention in days. -/
def DIAS_HISTORICO_LINKS : Int := 3

/-- `MAX_LINKS_HISTORICO = 1000` — maximum size of the notification history. -/
def MAX_LINKS_HISTORICO : Nat := 1000

/-- A URL as seen by the program: the raw string plus the `urlparse` components
the code actually reads (`netloc` and `path`). -/
structure Url where
  raw : String
  netloc : String
  path : String
deriving DecidableEq, Repr

/-- One value of the `historico_links` map:
`{"data_notificacao": ..., "data_publicacao": ..., "secao": ...}`.
`dataNotificacao = none` models a missing or unparseable timestamp string
(in the source either case makes the pruning loop drop the entry). -/
structure Entry where
  dataNotificacao : Option Int
  dataPublicacao : Option Int
  secao : String
deriving DecidableEq, Repr

/-- The insertion-ordered `historico_links` dict. -/
abbrev Historico := List (Url × Entry)

/-- The persisted configuration snapshot (the fields the monitoring pass
reads; `secoes_descobertas` only chooses which section pages get fetched and
is folded into the per-site section input of a pass). -/
structure Config where
  telegramOwnerId : Option Int
  palavrasChave : List String
  sitesMonitorados : List String
  monitoramentoAtivo : Bool
  googleNewsAtivo : Bool
  historicoLinks : Historico
deriving DecidableEq, Repr

/-- `DEFAULT_CONFIG` restricted to the modelled fields: no owner, empty
keyword and site lists, monitoring off, Google News on, empty history. -/
def DEFAULT_CONFIG : Config :=
  { telegramOwnerId := none
    palavrasChave := []
    sitesMonitorados := []
    monitoramentoAtivo := false
    googleNewsAtivo := true
    historicoLinks := [] }

/-- Outcome of trying to read the persisted config file:
the file is absent, reading/JSON-parsing it raises, or it yields a config
(the key-filling of partial files and the backup restoration are folded into
the payload of `ok`, since both only massage the successfully parsed data). -/
inductive DiskState where
  | arquivoAusente : DiskState
  | leituraFalha : DiskState
  | ok : Config → DiskState

/-- `carregar_config`: on a missing file or on any exception while reading or
JSON-parsing it, return (a copy of) the default configuration. -/
def carregar_config : DiskState → Config
  | .arquivoAusente => DEFAULT_CONFIG
  | .leituraFalha => DEFAULT_CONFIG
  | .ok c => c

/-- Membership test of a raw URL string among the history keys
(Python's `url in historico`). -/
def temChave (u : String) (h : Historico) : Bool :=
  h.any (fun kv => kv.1.raw == u)

/-- Does this history entry survive the age filter of
`limpar_historico_antigo` at time `agora`?  The source removes entries whose
`data_notificacao` is missing or unparseable, and entries strictly older than
`agora - DIAS_HISTORICO_LINKS` days. -/
def sobreviveIdade (agora : Int) (kv : Url × Entry) : Bool :=
  match kv.2.dataNotificacao with
  | none => false
  | some t => decide (agora - DIAS_HISTORICO_LINKS * segundosPorDia ≤ t)

/-- Sort key used by the size cap of `limpar_historico_antigo`
(`data_notificacao`; after the age filter every entry has one). -/
def chaveNotif (kv : Url × Entry) : Int :=
  kv.2.dataNotificacao.getD 0

/-- The ordering of `sorted(..., key=data_notificacao, reverse=True)`:
`a` may come before `b` iff `a`'s notification time is at least `b`'s.
A stable sort under this relation is exactly Python's reverse stable sort. -/
def notifGE (a b : Url × Entry) : Prop := chaveNotif b ≤ chaveNotif a

instance : DecidableRel notifGE := fun a b =>
  inferInstanceAs (Decidable (chaveNotif b ≤ chaveNotif a))

instance : IsTotal (Url × Entry) notifGE :=
  ⟨fun a b => le_total (chaveNotif b) (chaveNotif a)⟩

instance : IsTrans (Url × Entry) notifGE :=
  ⟨fun _ _ _ h h' => le_trans h' h⟩

/-- `limpar_historico_antigo`: drop entries with missing/unparseable or
too-old `data_notificacao`; then, if more than `MAX_LINKS_HISTORICO` remain,
keep only the most recently notified ones (stable descending sort on the
notification timestamp, take the first 1000). -/
def limpar_historico_antigo (agora : Int) (h : Historico) : Historico :=
  if MAX_LINKS_HISTORICO < (h.filter (sobreviveIdade agora)).length then
    ((h.filter (sobreviveIdade agora)).insertionSort notifGE).take
      MAX_LINKS_HISTORICO
  else h.filter (sobreviveIdade agora)

/-- Python's `str.lower()` (ASCII fragment), as a character list so that every
definition below is computable by structural recursion. -/
def minusculas (s : String) : List Char :=
  s.toList.map Char.toLower

/-- Python's `str.split('/')`: cut at every `/`, keeping empty pieces.
`atual` is the (reversed) piece being accumulated. -/
def splitBarra (atual : List Char) : List Char → List (List Char)
  | [] => [atual.reverse]
  | c :: cs =>
    if c == '/' then atual.reverse :: splitBarra [] cs
    else splitBarra (c :: atual) cs

/-- Token set of a path: Python's `set(path.split('/'))` —
split on `/`, deduplicate. -/
def tokensPath (p : List Char) : List (List Char) :=
  (splitBarra [] p).dedup

/-- `|A ∩ B|` for deduplicated token lists. -/
def tamInterseccao (a b : List (List Char)) : Nat :=
  (a.filter (fun t => t ∈ b)).length

/-- `|A ∪ B|` for deduplicated token lists. -/
def tamUniao (a b : List (List Char)) : Nat :=
  (a ++ b.filter (fun t => t ∉ a)).length

/-- The near-duplicate similarity test of `ja_foi_notificado`:
`len(A∩B)/len(A∪B) > 0.9`, on nonempty token sets, stated exactly over the
rationals (`10·|A∩B| > 9·|A∪B|`; for the token-set sizes arising from URL
paths the float comparison of the source agrees with the exact one). -/
def muitoSimilar (p q : List Char) : Bool :=
  if tokensPath p ≠ [] ∧ tokensPath q ≠ [] then
    decide (9 * tamUniao (tokensPath p) (tokensPath q) <
      10 * tamInterseccao (tokensPath p) (tokensPath q))
  else false

/-- The near-duplicate test of the history scan in `ja_foi_notificado`:
same `netloc`, both lower-cased paths longer than 10 characters, and path
token-set similarity above 0.9. -/
def quaseDuplicado (url : Url) (kv : Url × Entry) : Bool :=
  if 10 < (minusculas url.path).length ∧ 10 < (minusculas kv.1.path).length ∧
      url.netloc == kv.1.netloc then
    muitoSimilar (minusculas url.path) (minusculas kv.1.path)
  else false

/-- `MonitoramentoManager.ja_foi_notificado`: exact raw-URL membership in the
history; otherwise scan the history entries for a near-duplicate. -/
def ja_foi_notificado (url : Url) (h : Historico) : Bool :=
  if temChave url.raw h then true
  else h.any (quaseDuplicado url)

/-- `MonitoramentoManager.adicionar_ao_historico`: insert/overwrite the entry
for `url` with `data_notificacao = now` (Python dict assignment: an existing
key keeps its position, a new key is appended). -/
def adicionar_ao_historico (url : Url) (dataPub : Option Int) (secao : String)
    (agora : Int) (h : Historico) : Historico :=
  if temChave url.raw h then
    h.map (fun kv =>
      if kv.1.raw == url.raw then (kv.1, ⟨some agora, dataPub, secao⟩) else kv)
  else h ++ [(url, ⟨some agora, dataPub, secao⟩)]

/-- `MonitoramentoManager.eh_noticia_recente`: no date ⇒ recent; otherwise
recent iff the publication date is at most `DIAS_FILTRO_NOTICIAS` days before
today (inclusive boundary: `data_publicacao >= hoje - limite`). -/
def eh_noticia_recente (hoje : Int) : Option Int → Bool
  | none => true
  | some d => decide (hoje - DIAS_FILTRO_NOTICIAS ≤ d)

/-- Is `pat` a prefix of `s`? (helper for substring containment). -/
def comecaCom : List Char → List Char → Bool
  | [], _ => true
  | _ :: _, [] => false
  | p :: ps, c :: cs => p == c && comecaCom ps cs

/-- Substring containment, Python's `pat in s`. -/
def contemSub (s pat : List Char) : Bool :=
  match s with
  | [] => comecaCom pat []
  | _ :: cs => comecaCom pat s || contemSub cs pat

/-- `identificar_secao_url`: first matching substring of the lower-cased URL
among the section patterns of the source; default `Geral`. -/
def identificar_secao_url (url : String) : String :=
  let u := minusculas url
  if contemSub u "/politica".toList || contemSub u "/poder".toList then "Política"
  else if contemSub u "/economia".toList || contemSub u "/mercado".toList then "Economia"
  else if contemSub u "/brasil".toList || contemSub u "/nacional".toList then "Brasil"
  else if contemSub u "/mundo".toList || contemSub u "/internacional".toList then "Mundo"
  else if contemSub u "/esporte".toList || contemSub u "/futebol".toList then "Esportes"
  else if contemSub u "/tecnologia".toList || contemSub u "/tech".toList then "Tecnologia"
  else "Geral"

/-- `extrair_nome_fonte`: static domain table, else `📰 {domain}`. -/
def extrair_nome_fonte (url : Url) : String :=
  let d := minusculas url.netloc
  if d == "g1.globo.com".toList then "🌐 G1"
  else if d == "globo.com".toList then "🌐 Globo"
  else if d == "folha.uol.com.br".toList then "📰 Folha"
  else if d == "uol.com.br".toList then "📰 UOL"
  else if d == "estadao.com.br".toList then "📰 Estadão"
  else if d == "oeste.com.br".toList then "📰 Revista Oeste"
  else if d == "oantagonista.com.br".toList then "📰 O Antagonista"
  else if d == "poder360.com.br".toList then "📰 Poder360"
  else if d == "gazetadopovo.com.br".toList then "📰 Gazeta do Povo"
  else if d == "cnn.com.br".toList then "📺 CNN Brasil"
  else if d == "band.uol.com.br".toList then "📺 Band"
  else if d == "r7.com".toList then "📺 R7"
  else "📰 " ++ String.mk d

/-- Word character of the regex `\b` boundary (ASCII fragment of `\w`). -/
def isCharPalavra (c : Char) : Bool := c.isAlphanum || c == '_'

/-- Is position `i` of text `t` a `\b` word boundary?  A boundary separates a
word character from a non-word character (positions outside the text count as
non-word). -/
def fronteiraPalavra (t : List Char) (i : Nat) : Bool :=
  let dir := match t.drop i with
    | [] => false
    | c :: _ => isCharPalavra c
  let esq := match i with
    | 0 => false
    | j + 1 =>
      match t.drop j with
      | [] => false
      | c :: _ => isCharPalavra c
  esq != dir

/-- Does the literal pattern `k` match text `t` at position `i`, with `\b`
anchors on either side (`re.search(r'\b' + re.escape(k) + r'\b', t)` at `i`)? -/
def casaPosicao (t k : List Char) (i : Nat) : Bool :=
  ((t.drop i).take k.length == k) && fronteiraPalavra t i &&
    fronteiraPalavra t (i + k.length)

/-- Whole-word occurrence: the `\b`-anchored pattern matches somewhere. -/
def temPalavraCompleta (k t : List Char) : Bool :=
  (List.range (t.length + 1)).any (fun i => casaPosicao t k i)

/-- `MonitoramentoManager.verificar_palavras_chave`: keep, in order, the
keywords whose lower-cased text occurs whole-word in the (already
lower-cased) text. -/
def verificar_palavras_chave (texto : String) (palavras : List String) :
    List String :=
  palavras.filter (fun p => temPalavraCompleta (minusculas p) texto.toList)

/-- A raw item returned by one feed (Google News) query. -/
structure GNoticia where
  titulo : String
  url : Url
  publisher : String
  publishedDate : Option Int
  description : String
deriving DecidableEq, Repr

/-- A formatted result dict (`noticia_formatada` / the dict built by
`monitorar_noticia_especifica`) — what gets appended to the result lists and
sent to the notifier. -/
structure Noticia where
  url : Url
  titulo : String
  dataPublicacao : Option Int
  palavras : List String
  fonteNome : String
  secao : String
deriving DecidableEq, Repr

/-- The per-item body of `buscar_noticias_google_news`: keep the item iff some
keyword occurs — as a plain substring — in the lower-cased
`titulo + " " + description` and the URL is nonempty. -/
def processaGNoticia (palavras : List String) (n : GNoticia) : Option Noticia :=
  if palavras.filter (fun p =>
        contemSub (minusculas (n.titulo ++ " " ++ n.description))
          (minusculas p)) ≠ [] ∧ n.url.raw ≠ "" then
    some { url := n.url
           titulo := n.titulo
           dataPublicacao := n.publishedDate
           palavras := palavras.filter (fun p =>
             contemSub (minusculas (n.titulo ++ " " ++ n.description))
               (minusculas p))
           fonteNome := "📰 " ++ n.publisher
           secao := "Google News" }
  else none

/-- URL-deduplication at the end of `buscar_noticias_google_news`
(`urls_vistas` set; first occurrence wins). -/
def dedupPorUrl : List Noticia → List String → List Noticia
  | [], _ => []
  | n :: ns, vistas =>
    if n.url.raw ∈ vistas then dedupPorUrl ns vistas
    else n :: dedupPorUrl ns (n.url.raw :: vistas)

/-- `buscar_noticias_google_news`.  `feedData` holds one oracle answer per
queried keyword (the code queries the first five keywords); an inner `none`
means that keyword's query raised (caught, skipped).  The matched items are
concatenated in query order and deduplicated by URL. -/
def buscar_noticias_google_news (palavras : List String)
    (feedData : List (Option (List GNoticia))) : List Noticia :=
  dedupPorUrl
    (feedData.foldl
      (fun acc o => acc ++ (o.getD []).filterMap (processaGNoticia palavras))
      []) []

/-- Metadata extracted from a fetched article page
(`extrair_metadados_pagina`; `texto` is the lower-cased body text). -/
structure Metadados where
  titulo : String
  dataPublicacao : Option Int
  texto : String
deriving DecidableEq, Repr

/-- One resolved section of a monitored site: its name, whether processing it
raises (the per-section `try`/`except` of the pass), and the candidate
article links its page yields (`descobrir_links_noticias`, already filtered
by `eh_url_noticia` and capped — that function catches its own failures and
returns an empty list, so a fetch failure is the empty list). -/
structure Secao where
  nome : String
  falha : Bool
  links : List Url
deriving Repr, DecidableEq

/-- External data of one monitored site for one pass: whether the site-level
processing raises (the per-site `try`/`except`), and its resolved sections
(fixed table for known domains, otherwise the cached/rediscovered section
map — under fixed upstream content the resolution is the same either way). -/
structure SiteData where
  falha : Bool
  secoes : List Secao
deriving Repr, DecidableEq

/-- All external inputs of one call to `executar_monitoramento`:
the current time (seconds) and date (days), the `executar_imediatamente`
flag, the feed-source answers (`none` = the whole source raised), the
per-site data and the page-fetch oracle. -/
structure PassInput where
  agora : Int
  hoje : Int
  imediato : Bool
  feedData : Option (List (Option (List GNoticia)))
  siteData : String → SiteData
  metaPagina : Url → Option Metadados

/-- `MonitoramentoManager.monitorar_noticia_especifica`: skip if already
notified; skip if the page yields no metadata; skip if not recent; match
keywords whole-word against the body text; on a match record to history and
return the formatted result. -/
def monitorar_noticia_especifica (inp : PassInput) (url : Url)
    (palavras : List String) (h : Historico) : Option Noticia × Historico :=
  if ja_foi_notificado url h then (none, h)
  else
    match inp.metaPagina url with
    | none => (none, h)
    | some md =>
      if eh_noticia_recente inp.hoje md.dataPublicacao = false then (none, h)
      else if verificar_palavras_chave md.texto palavras = [] then (none, h)
      else
        (some { url := url
                titulo := md.titulo
                dataPublicacao := md.dataPublicacao
                palavras := verificar_palavras_chave md.texto palavras
                fonteNome := extrair_nome_fonte url
                secao := identificar_secao_url url.raw },
         adicionar_ao_historico url md.dataPublicacao
           (identificar_secao_url url.raw) inp.agora h)

/-- One step of the feed phase of `executar_monitoramento`: a feed result not
yet in the history is recorded and appended to the results. -/
def passoGoogle (agora : Int) (st : List Noticia × Historico) (n : Noticia) :
    List Noticia × Historico :=
  if ja_foi_notificado n.url st.2 then st
  else (st.1 ++ [n],
        adicionar_ao_historico n.url n.dataPublicacao n.secao agora st.2)

/-- The feed (Google News) phase: nothing on a disabled source; nothing (and
no history change) when the source raised; otherwise fold over the feed
results. -/
def faseGoogle (inp : PassInput) (palavras : List String) (h : Historico) :
    List Noticia × Historico :=
  match inp.feedData with
  | none => ([], h)
  | some fd =>
    (buscar_noticias_google_news palavras fd).foldl (passoGoogle inp.agora) ([], h)

/-- One link of a site section. -/
def passoLink (inp : PassInput) (palavras : List String)
    (st : List Noticia × Historico) (url : Url) : List Noticia × Historico :=
  match monitorar_noticia_especifica inp url palavras st.2 with
  | (none, h) => (st.1, h)
  | (some n, h) => (st.1 ++ [n], h)

/-- One section of a site: a raising section contributes nothing
(`except ... continue`). -/
def passoSecao (inp : PassInput) (palavras : List String)
    (st : List Noticia × Historico) (sec : Secao) : List Noticia × Historico :=
  if sec.falha then st
  else sec.links.foldl (passoLink inp palavras) st

/-- One monitored site: a raising site contributes nothing
(`except ... continue`); otherwise fold over its sections. -/
def passoSite (inp : PassInput) (palavras : List String)
    (st : List Noticia × Historico) (siteUrl : String) :
    List Noticia × Historico :=
  if (inp.siteData siteUrl).falha then st
  else (inp.siteData siteUrl).secoes.foldl (passoSecao inp palavras) st

/-- The site-sources phase of `executar_monitoramento`. -/
def faseSites (inp : PassInput) (palavras : List String)
    (sites : List String) (h : Historico) : List Noticia × Historico :=
  sites.foldl (passoSite inp palavras) ([], h)

/-- The feed phase of a pass, skipped when the feed source is disabled. -/
def faseG (inp : PassInput) (cfg1 : Config) : List Noticia × Historico :=
  if cfg1.googleNewsAtivo
  then faseGoogle inp cfg1.palavrasChave cfg1.historicoLinks
  else ([], cfg1.historicoLinks)

/-- The two source phases of a pass in order (feed results first, then site
results), threading the history through both. -/
def corpoPass (inp : PassInput) (cfg1 : Config) : List Noticia × Historico :=
  ((faseG inp cfg1).1 ++
    (faseSites inp cfg1.palavrasChave cfg1.sitesMonitorados
      (faseG inp cfg1).2).1,
   (faseSites inp cfg1.palavrasChave cfg1.sitesMonitorados
     (faseG inp cfg1).2).2)

/-- `MonitoramentoManager.executar_monitoramento` as a state transformer on
the persisted `Config`: prune the history, run the early-exit checks (which
return before anything is persisted, so the stored config is unchanged),
then run the feed phase followed by the site phase and persist the updated
history.  The returned config models what `salvar_config` leaves on disk. -/
def executar_monitoramento (inp : PassInput) (cfg : Config) :
    List Noticia × Config :=
  if inp.imediato = false ∧ cfg.monitoramentoAtivo = false then ([], cfg)
  else if cfg.telegramOwnerId = none then ([], cfg)
  else if cfg.palavrasChave = [] then ([], cfg)
  else
    ((corpoPass inp { cfg with
        historicoLinks := limpar_historico_antigo inp.agora
          cfg.historicoLinks }).1,
     { cfg with historicoLinks := (corpoPass inp { cfg with
         historicoLinks := limpar_historico_antigo inp.agora
           cfg.historicoLinks }).2 })

/-- A sequence of monitoring passes, each loading the config persisted by the
previous one; returns all emitted results in order plus the final config. -/
def executar_cadeia : List PassInput → Config → List Noticia × Config
  | [], cfg => ([], cfg)
  | inp :: resto, cfg =>
    ((executar_monitoramento inp cfg).1 ++
      (executar_cadeia resto (executar_monitoramento inp cfg).2).1,
     (executar_cadeia resto (executar_monitoramento inp cfg).2).2)

/-- How many of the emitted results carry raw URL `u`. -/
def contaUrl (u : String) (rs : List Noticia) : Nat :=
  (rs.filter (fun n => n.url.raw == u)).length

/-- Along a chain of passes, the pruning step of each pass preserves URL `u`'s
history entry whenever it is present (i.e. `u` never ages out of the
retention window nor is evicted by the 1000-entry cap between passes). -/
def preservaChave (u : String) : List PassInput → Config → Bool
  | [], _ => true
  | inp :: resto, cfg =>
    (!temChave u cfg.historicoLinks ||
      temChave u (limpar_historico_antigo inp.agora cfg.historicoLinks)) &&
    preservaChave u resto (executar_monitoramento inp cfg).2

/-- A candidate link is dead for a history `h`: processing it through
`monitorar_noticia_especifica` yields no result and leaves `h` unchanged,
for one of the four reasons of the source. -/
def morto (inp : PassInput) (palavras : List String) (h : Historico)
    (url : Url) : Prop :=
  ja_foi_notificado url h = true ∨
  inp.metaPagina url = none ∨
  (∃ md, inp.metaPagina url = some md ∧
    (eh_noticia_recente inp.hoje md.dataPublicacao = false ∨
     verificar_palavras_chave md.texto palavras = []))

/-- Invariant of the pass folds: URL `u` was emitted at most once so far, and
if it was emitted it is now a history key. -/
def InvConta (u : String) (st : List Noticia × Historico) : Prop :=
  contaUrl u st.1 ≤ 1 ∧ (1 ≤ contaUrl u st.1 → temChave u st.2 = true)

/-- Invariant of the pass folds when `u` is a history key from the start:
it stays a key and is never emitted. -/
def InvZero (u : String) (st : List Noticia × Historico) : Prop :=
  temChave u st.2 = true ∧ contaUrl u st.1 = 0

/-! ## Basic lemmas about the history primitives -/

theorem temChave_iff {u : String} {h : Historico} :
    temChave u h = true ↔ ∃ kv ∈ h, kv.1.raw = u := by
  simp [temChave, List.any_eq_true]

theorem temChave_mono {u : String} {h h' : Historico}
    (hsub : ∀ kv ∈ h, kv ∈ h') (ht : temChave u h = true) :
    temChave u h' = true := by
  rcases temChave_iff.mp ht with ⟨kv, hkv, he⟩
  exact temChave_iff.mpr ⟨kv, hsub kv hkv, he⟩

theorem ja_foi_of_temChave {u : Url} {h : Historico}
    (ht : temChave u.raw h = true) : ja_foi_notificado u h = true := by
  simp [ja_foi_notificado, ht]

theorem temChave_eq_false {u : Url} {h : Historico}
    (hf : ja_foi_notificado u h = false) : temChave u.raw h = false := by
  cases ht : temChave u.raw h
  · rfl
  · rw [ja_foi_of_temChave ht] at hf; cases hf

theorem ja_foi_mono {u : Url} {h h' : Historico}
    (hsub : ∀ kv ∈ h, kv ∈ h') (ht : ja_foi_notificado u h = true) :
    ja_foi_notificado u h' = true := by
  unfold ja_foi_notificado at ht ⊢
  by_cases hc : temChave u.raw h = true
  · simp [temChave_mono hsub hc]
  · rw [if_neg hc] at ht
    rcases List.any_eq_true.mp ht with ⟨kv, hkv, hq⟩
    by_cases hc' : temChave u.raw h' = true
    · simp [hc']
    · rw [if_neg hc']
      exact List.any_eq_true.mpr ⟨kv, hsub kv hkv, hq⟩

theorem adicionar_append {u : Url} {d : Option Int} {s : String} {t : Int}
    {h : Historico} (hn : temChave u.raw h = false) :
    adicionar_ao_historico u d s t h = h ++ [(u, ⟨some t, d, s⟩)] := by
  simp [adicionar_ao_historico, hn]

theorem temChave_adicionar_self (u : Url) (d : Option Int) (s : String)
    (t : Int) (h : Historico) :
    temChave u.raw (adicionar_ao_historico u d s t h) = true := by
  unfold adicionar_ao_historico
  split
  case isTrue ht =>
    rcases temChave_iff.mp ht with ⟨kv, hkv, he⟩
    apply temChave_iff.mpr
    refine ⟨_, List.mem_map_of_mem _ hkv, ?_⟩
    have hb : (kv.1.raw == u.raw) = true := by simp [he]
    simp [hb, he]
  case isFalse hf =>
    exact temChave_iff.mpr ⟨(u, ⟨some t, d, s⟩), by simp, rfl⟩

theorem temChave_adicionar_of {v : String} {u : Url} {d : Option Int}
    {s : String} {t : Int} {h : Historico} (hv : temChave v h = true) :
    temChave v (adicionar_ao_historico u d s t h) = true := by
  rcases temChave_iff.mp hv with ⟨kv, hkv, he⟩
  unfold adicionar_ao_historico
  split
  · apply temChave_iff.mpr
    refine ⟨_, List.mem_map_of_mem _ hkv, ?_⟩
    split <;> exact he
  · exact temChave_iff.mpr ⟨kv, List.mem_append_left _ hkv, he⟩

theorem mem_adicionar {kv : Url × Entry} {u : Url} {d : Option Int}
    {s : String} {t : Int} {h : Historico}
    (hn : temChave u.raw h = false) (hm : kv ∈ h) :
    kv ∈ adicionar_ao_historico u d s t h := by
  rw [adicionar_append hn]; exact List.mem_append_left _ hm

/-! ## C5 — recency filter -/

/-- **C5.**  `eh_noticia_recente` accepts a missing date (fail-open) and
otherwise accepts exactly the dates at most `DIAS_FILTRO_NOTICIAS = 3` days
before today, boundary inclusive.  Concretely with today = 2025-06-20
(epoch day 20259): 2025-06-17 (20256) is recent, 2025-06-16 (20255) is not,
and a dateless article is recent. -/
theorem recencia_spec :
    (∀ hoje : Int, eh_noticia_recente hoje none = true) ∧
    (∀ hoje d : Int,
      eh_noticia_recente hoje (some d) = true ↔ hoje - DIAS_FILTRO_NOTICIAS ≤ d) ∧
    eh_noticia_recente 20259 (some 20256) = true ∧
    eh_noticia_recente 20259 (some 20255) = false ∧
    eh_noticia_recente 20259 none = true := by
  refine ⟨fun _ => rfl, fun hoje d => ?_, by decide, by decide, rfl⟩
  simp [eh_noticia_recente]

/-! ## C10 — corrupt config file falls back to defaults -/

/-- **C10.**  If reading or JSON-parsing the persisted config file raises,
`carregar_config` returns the default configuration: empty keyword list,
empty site list, empty notification history.  A pass starting from that
load therefore works on an empty duplicate-suppression history: pruning it
is a no-op and no URL counts as already notified. -/
theorem carregar_config_fallback :
    carregar_config .leituraFalha = DEFAULT_CONFIG ∧
    (carregar_config .leituraFalha).palavrasChave = [] ∧
    (carregar_config .leituraFalha).sitesMonitorados = [] ∧
    (carregar_config .leituraFalha).historicoLinks = [] ∧
    (∀ agora : Int,
      limpar_historico_antigo agora
        (carregar_config .leituraFalha).historicoLinks = []) ∧
    (∀ u : Url,
      ja_foi_notificado u (carregar_config .leituraFalha).historicoLinks = false) :=
  ⟨rfl, rfl, rfl, rfl, fun _ => rfl, fun _ => rfl⟩

/-! ## C3 — exact and near-duplicate detection -/

/-- **C3, counterexample.**  The claim says any same-domain history entry
with path token-set similarity above 0.9 makes `ja_foi_notificado` true.
Here the candidate and the (distinct) history key share domain `x.com` and
the very same path `/ab` (similarity 1 > 0.9), yet the code answers `false`,
because both paths are no longer than 10 characters. -/
theorem ja_foi_cex :
    ja_foi_notificado ⟨"http://x.com/ab?p=1", "x.com", "/ab"⟩
        [(⟨"http://x.com/ab?p=2", "x.com", "/ab"⟩, ⟨some 0, none, "Geral"⟩)]
      = false ∧
    ("http://x.com/ab?p=2" : String) ≠ "http://x.com/ab?p=1" ∧
    ("x.com" : String) = "x.com" ∧
    9 * tamUniao (tokensPath (minusculas "/ab")) (tokensPath (minusculas "/ab")) <
      10 * tamInterseccao (tokensPath (minusculas "/ab"))
        (tokensPath (minusculas "/ab")) := by decide

theorem muitoSimilar_iff (p q : List Char) :
    muitoSimilar p q = true ↔
      9 * tamUniao (tokensPath p) (tokensPath q) <
        10 * tamInterseccao (tokensPath p) (tokensPath q) := by
  unfold muitoSimilar
  split
  case isTrue hg => simp
  case isFalse hg =>
    simp only [Bool.false_eq_true, false_iff, not_lt]
    rcases not_and_or.mp hg with ha | hb
    · have ha' : tokensPath p = [] := not_not.mp ha
      simp [tamInterseccao, ha']
    · have hb' : tokensPath q = [] := not_not.mp hb
      have : tamInterseccao (tokensPath p) (tokensPath q) = 0 := by
        simp [tamInterseccao, hb', List.filter_eq_nil_iff]
      omega

/-- **C3, amended.**  `ja_foi_notificado` is true exactly when the candidate's
raw URL is a history key, or some history entry has the same `netloc`, both
lower-cased paths longer than 10 characters, and path token-set similarity
strictly above 0.9; with no exact match and every same-domain entry failing
that test it is false. -/
theorem ja_foi_spec (url : Url) (h : Historico) :
    ja_foi_notificado url h = true ↔
      (∃ kv ∈ h, kv.1.raw = url.raw) ∨
      (∃ kv ∈ h, url.netloc = kv.1.netloc ∧
        10 < (minusculas url.path).length ∧
        10 < (minusculas kv.1.path).length ∧
        9 * tamUniao (tokensPath (minusculas url.path))
            (tokensPath (minusculas kv.1.path)) <
          10 * tamInterseccao (tokensPath (minusculas url.path))
            (tokensPath (minusculas kv.1.path))) := by
  unfold ja_foi_notificado
  split
  case isTrue ht =>
    rcases temChave_iff.mp ht with ⟨kv, hkv, he⟩
    exact iff_of_true rfl (Or.inl ⟨kv, hkv, he⟩)
  case isFalse hf =>
    constructor
    · intro ha
      rcases List.any_eq_true.mp ha with ⟨kv, hkv, hq⟩
      unfold quaseDuplicado at hq
      split at hq
      case isTrue hcond =>
        rcases hcond with ⟨h1, h2, h3⟩
        exact Or.inr ⟨kv, hkv, eq_of_beq h3, h1, h2,
          (muitoSimilar_iff _ _).mp hq⟩
      case isFalse _ => cases hq
    · intro hr
      rcases hr with ⟨kv, hkv, he⟩ | ⟨kv, hkv, hnet, h1, h2, hlt⟩
      · exact absurd (temChave_iff.mpr ⟨kv, hkv, he⟩) hf
      · apply List.any_eq_true.mpr
        refine ⟨kv, hkv, ?_⟩
        unfold quaseDuplicado
        rw [if_pos ⟨h1, h2, by simp [hnet]⟩]
        exact (muitoSimilar_iff _ _).mpr hlt

/-! ## C9 — section classification from the URL -/

/-- **C9, counterexample.**  The claim says every URL without `/politica/` or
`/economia/` is classified General; but the code also recognises Brasil,
Mundo, Esportes, Tecnologia and the extra patterns `/poder` and `/mercado`:
a `/brasil/` URL is classified `Brasil`, not `Geral`. -/
theorem secao_cex :
    identificar_secao_url "https://g1.globo.com/brasil/x" = "Brasil" ∧
    ("Brasil" : String) ≠ "Geral" ∧
    contemSub (minusculas "https://g1.globo.com/brasil/x") "/politica/".toList
      = false ∧
    contemSub (minusculas "https://g1.globo.com/brasil/x") "/economia/".toList
      = false := by decide

/-- **C9, amended.**  `identificar_secao_url` classifies by the first matching
substring of the lower-cased URL in the source's fixed order:
`/politica`,`/poder` → Política; `/economia`,`/mercado` → Economia;
`/brasil`,`/nacional` → Brasil; `/mundo`,`/internacional` → Mundo;
`/esporte`,`/futebol` → Esportes; `/tecnologia`,`/tech` → Tecnologia;
otherwise Geral (all matches without a required trailing slash). -/
theorem secao_spec (url : String) :
    (contemSub (minusculas url) "/politica".toList = true ∨
        contemSub (minusculas url) "/poder".toList = true →
      identificar_secao_url url = "Política") ∧
    (contemSub (minusculas url) "/politica".toList = false →
      contemSub (minusculas url) "/poder".toList = false →
      contemSub (minusculas url) "/economia".toList = true ∨
        contemSub (minusculas url) "/mercado".toList = true →
      identificar_secao_url url = "Economia") ∧
    (contemSub (minusculas url) "/politica".toList = false →
      contemSub (minusculas url) "/poder".toList = false →
      contemSub (minusculas url) "/economia".toList = false →
      contemSub (minusculas url) "/mercado".toList = false →
      contemSub (minusculas url) "/brasil".toList = true ∨
        contemSub (minusculas url) "/nacional".toList = true →
      identificar_secao_url url = "Brasil") ∧
    (contemSub (minusculas url) "/politica".toList = false →
      contemSub (minusculas url) "/poder".toList = false →
      contemSub (minusculas url) "/economia".toList = false →
      contemSub (minusculas url) "/mercado".toList = false →
      contemSub (minusculas url) "/brasil".toList = false →
      contemSub (minusculas url) "/nacional".toList = false →
      contemSub (minusculas url) "/mundo".toList = true ∨
        contemSub (minusculas url) "/internacional".toList = true →
      identificar_secao_url url = "Mundo") ∧
    (contemSub (minusculas url) "/politica".toList = false →
      contemSub (minusculas url) "/poder".toList = false →
      contemSub (minusculas url) "/economia".toList = false →
      contemSub (minusculas url) "/mercado".toList = false →
      contemSub (minusculas url) "/brasil".toList = false →
      contemSub (minusculas url) "/nacional".toList = false →
      contemSub (minusculas url) "/mundo".toList = false →
      contemSub (minusculas url) "/internacional".toList = false →
      contemSub (minusculas url) "/esporte".toList = true ∨
        contemSub (minusculas url) "/futebol".toList = true →
      identificar_secao_url url = "Esportes") ∧
    (contemSub (minusculas url) "/politica".toList = false →
      contemSub (minusculas url) "/poder".toList = false →
      contemSub (minusculas url) "/economia".toList = false →
      contemSub (minusculas url) "/mercado".toList = false →
      contemSub (minusculas url) "/brasil".toList = false →
      contemSub (minusculas url) "/nacional".toList = false →
      contemSub (minusculas url) "/mundo".toList = false →
      contemSub (minusculas url) "/internacional".toList = false →
      contemSub (minusculas url) "/esporte".toList = false →
      contemSub (minusculas url) "/futebol".toList = false →
      contemSub (minusculas url) "/tecnologia".toList = true ∨
        contemSub (minusculas url) "/tech".toList = true →
      identificar_secao_url url = "Tecnologia") ∧
    (contemSub (minusculas url) "/politica".toList = false →
      contemSub (minusculas url) "/poder".toList = false →
      contemSub (minusculas url) "/economia".toList = false →
      contemSub (minusculas url) "/mercado".toList = false →
      contemSub (minusculas url) "/brasil".toList = false →
      contemSub (minusculas url) "/nacional".toList = false →
      contemSub (minusculas url) "/mundo".toList = false →
      contemSub (minusculas url) "/internacional".toList = false →
      contemSub (minusculas url) "/esporte".toList = false →
      contemSub (minusculas url) "/futebol".toList = false →
      contemSub (minusculas url) "/tecnologia".toList = false →
      contemSub (minusculas url) "/tech".toList = false →
      identificar_secao_url url = "Geral") := by
  refine ⟨?_, ?_, ?_, ?_, ?_, ?_, ?_⟩ <;> intros <;>
    first
    | (rename_i hd
       rcases hd with hd | hd <;> simp_all [identificar_secao_url])
    | simp_all [identificar_secao_url]

/-- Concrete instances of `secao_spec`, one per branch. -/
theorem secao_spec_witness :
    identificar_secao_url "https://a.com/politica/x" = "Política" ∧
    identificar_secao_url "https://a.com/economia/x" = "Economia" ∧
    identificar_secao_url "https://a.com/brasil/x" = "Brasil" ∧
    identificar_secao_url "https://a.com/mundo/x" = "Mundo" ∧
    identificar_secao_url "https://a.com/esportes/x" = "Esportes" ∧
    identificar_secao_url "https://a.com/tecnologia/x" = "Tecnologia" ∧
    identificar_secao_url "https://a.com/sobre" = "Geral" :=
  ⟨(secao_spec _).1 (Or.inl (by decide)),
   (secao_spec _).2.1 (by decide) (by decide) (Or.inl (by decide)),
   (secao_spec _).2.2.1 (by decide) (by decide) (by decide) (by decide)
     (Or.inl (by decide)),
   (secao_spec _).2.2.2.1 (by decide) (by decide) (by decide) (by decide)
     (by decide) (by decide) (Or.inl (by decide)),
   (secao_spec _).2.2.2.2.1 (by decide) (by decide) (by decide) (by decide)
     (by decide) (by decide) (by decide) (by decide) (Or.inl (by decide)),
   (secao_spec _).2.2.2.2.2.1 (by decide) (by decide) (by decide) (by decide)
     (by decide) (by decide) (by decide) (by decide) (by decide) (by decide)
     (Or.inl (by decide)),
   (secao_spec _).2.2.2.2.2.2 (by decide) (by decide) (by decide) (by decide)
     (by decide) (by decide) (by decide) (by decide) (by decide) (by decide)
     (by decide) (by decide)⟩

/-! ## C4 — history pruning -/

theorem mem_take_of_pair_sublist {α : Type _} {a b : α} {l : List α} {n : Nat}
    (hnd : l.Nodup) (hs : List.Sublist [a, b] l) (hb : b ∈ l.take n) : a ∈ l.take n := by
  induction l generalizing n with
  | nil => simp at hs
  | cons x xs ih =>
    cases n with
    | zero => simp at hb
    | succ n =>
      rw [List.take_succ_cons] at hb ⊢
      cases hs with
      | cons₂ _ htail => exact List.mem_cons_self _ _
      | cons _ htail =>
        rcases List.mem_cons.mp hb with rfl | hb'
        · have hbxs : b ∈ xs :=
            htail.subset (List.mem_cons_of_mem _ (List.mem_cons_self _ _))
          exact absurd hbxs (List.nodup_cons.mp hnd).1
        · exact List.mem_cons_of_mem _
            (ih (List.nodup_cons.mp hnd).2 htail hb')

theorem mem_filter_of_mem_limpar {agora : Int} {h : Historico}
    {kv : Url × Entry} (hm : kv ∈ limpar_historico_antigo agora h) :
    kv ∈ h.filter (sobreviveIdade agora) := by
  unfold limpar_historico_antigo at hm
  split at hm
  · exact (List.mem_insertionSort notifGE).mp (List.mem_of_mem_take hm)
  · exact hm

/-- **C4.**  After `limpar_historico_antigo`: every surviving entry has a
parseable `data_notificacao` at most 3 days old (entries with a missing or
unparseable timestamp are gone); at most 1000 entries remain; every kept
entry was notified at least as recently as every dropped (but age-surviving)
entry; among the age-survivors, anything ranked at least as high as a kept
entry — earlier in insertion order when notification times tie — is also
kept; and concretely an entry notified 4 days ago is removed while one
notified 1 day ago is kept. -/
theorem limpar_historico_spec (agora : Int) (h : Historico)
    (hnd : (h.map (fun kv => kv.1.raw)).Nodup) :
    (∀ kv ∈ limpar_historico_antigo agora h, ∃ t, kv.2.dataNotificacao = some t ∧
        agora - DIAS_HISTORICO_LINKS * segundosPorDia ≤ t) ∧
    (limpar_historico_antigo agora h).length ≤ MAX_LINKS_HISTORICO ∧
    (∀ kv ∈ h.filter (sobreviveIdade agora), kv ∉ limpar_historico_antigo agora h →
      ∀ kv' ∈ limpar_historico_antigo agora h, chaveNotif kv ≤ chaveNotif kv') ∧
    (∀ kv kv' : Url × Entry, List.Sublist [kv, kv'] (h.filter (sobreviveIdade agora)) →
      chaveNotif kv' ≤ chaveNotif kv →
      kv' ∈ limpar_historico_antigo agora h →
      kv ∈ limpar_historico_antigo agora h) ∧
    limpar_historico_antigo 1000000
        [(⟨"http://a/umdia4", "a", "/umdia4"⟩, ⟨some 654400, none, "s"⟩),
         (⟨"http://a/umdia1", "a", "/umdia1"⟩, ⟨some 913600, none, "s"⟩)]
      = [(⟨"http://a/umdia1", "a", "/umdia1"⟩, ⟨some 913600, none, "s"⟩)] := by
  have hndh : h.Nodup := hnd.of_map
  have hndf : (h.filter (sobreviveIdade agora)).Nodup := hndh.filter _
  refine ⟨?_, ?_, ?_, ?_, by decide⟩
  · intro kv hm
    have hf := mem_filter_of_mem_limpar hm
    have hs := (List.mem_filter.mp hf).2
    unfold sobreviveIdade at hs
    rcases hn : kv.2.dataNotificacao with _ | t
    · rw [hn] at hs; cases hs
    · rw [hn] at hs
      exact ⟨t, rfl, of_decide_eq_true hs⟩
  · unfold limpar_historico_antigo
    split
    case isTrue hlen =>
      rw [List.length_take]
      exact min_le_left _ _
    case isFalse hlen => omega
  · intro kv hkvf hnot kv' hkv'
    unfold limpar_historico_antigo at hnot hkv'
    split at hnot
    case isTrue hlen =>
      rw [if_pos hlen] at hkv'
      have hperm := List.perm_insertionSort notifGE (h.filter (sobreviveIdade agora))
      have hkvs : kv ∈ (h.filter (sobreviveIdade agora)).insertionSort notifGE :=
        (List.mem_insertionSort notifGE).mpr hkvf
      have hkvdrop : kv ∈ ((h.filter (sobreviveIdade agora)).insertionSort
          notifGE).drop MAX_LINKS_HISTORICO := by
        have hsplit := List.take_append_drop MAX_LINKS_HISTORICO
          ((h.filter (sobreviveIdade agora)).insertionSort notifGE)
        rw [← hsplit] at hkvs
        rcases List.mem_append.mp hkvs with hin | hin
        · exact absurd hin hnot
        · exact hin
      have hsorted := List.sorted_insertionSort notifGE
        (h.filter (sobreviveIdade agora))
      rw [List.Sorted, ← List.take_append_drop MAX_LINKS_HISTORICO
        ((h.filter (sobreviveIdade agora)).insertionSort notifGE)] at hsorted
      exact (List.pairwise_append.mp hsorted).2.2 kv' hkv' kv hkvdrop
    case isFalse hlen =>
      rw [if_neg hlen] at hkv'
      exact absurd hkvf hnot
  · intro kv kv' hpair hge hkv'
    unfold limpar_historico_antigo at hkv' ⊢
    split at hkv'
    case isTrue hlen =>
      rw [if_pos hlen]
      have hpairs : List.Sublist [kv, kv'] ((h.filter (sobreviveIdade agora)).insertionSort notifGE) :=
        List.pair_sublist_insertionSort hge hpair
      have hnds : ((h.filter (sobreviveIdade agora)).insertionSort
          notifGE).Nodup :=
        ((List.perm_insertionSort notifGE _).nodup_iff).mpr hndf
      exact mem_take_of_pair_sublist hnds hpairs hkv'
    case isFalse hlen =>
      rw [if_neg hlen]
      exact hpair.subset (List.mem_cons_self _ _)

/-- Concrete instance of `limpar_historico_spec`: applied to a two-entry
history, the kept entry is recent enough and the bound holds. -/
theorem limpar_historico_spec_witness :
    (∃ t, ((⟨"http://a/umdia1", "a", "/umdia1"⟩, ⟨some 913600, none, "s"⟩) :
        Url × Entry).2.dataNotificacao = some t ∧
      1000000 - DIAS_HISTORICO_LINKS * segundosPorDia ≤ t) ∧
    (limpar_historico_antigo 1000000
        [(⟨"http://a/umdia4", "a", "/umdia4"⟩, ⟨some 654400, none, "s"⟩),
         (⟨"http://a/umdia1", "a", "/umdia1"⟩, ⟨some 913600, none, "s"⟩)]).length
      ≤ MAX_LINKS_HISTORICO :=
  ⟨(limpar_historico_spec 1000000
      [(⟨"http://a/umdia4", "a", "/umdia4"⟩, ⟨some 654400, none, "s"⟩),
       (⟨"http://a/umdia1", "a", "/umdia1"⟩, ⟨some 913600, none, "s"⟩)]
      (by decide)).1 _ (by decide),
   (limpar_historico_spec 1000000
      [(⟨"http://a/umdia4", "a", "/umdia4"⟩, ⟨some 654400, none, "s"⟩),
       (⟨"http://a/umdia1", "a", "/umdia1"⟩, ⟨some 913600, none, "s"⟩)]
      (by decide)).2.1⟩

/-! ## C6 — keyword matching in the two pipelines -/

/-- **C6, counterexample.**  The feed pipeline does not use the whole-word
rule: it matches keywords by plain substring containment in
`titulo + " " + description`.  A pass whose feed returns the title
`"Os devotos"` emits a result listing the keyword `"voto"`, although
`"voto"` does not occur in that text as a whole word. -/
theorem palavras_cex :
    ((executar_monitoramento
      { agora := 0, hoje := 0, imediato := true
        feedData := some [some [{ titulo := "Os devotos"
                                  url := ⟨"http://x.com/a", "x.com", "/a"⟩
                                  publisher := "P", publishedDate := none
                                  description := "" }]]
        siteData := fun _ => ⟨true, []⟩
        metaPagina := fun _ => none }
      { telegramOwnerId := some 1, palavrasChave := ["voto"]
        sitesMonitorados := [], monitoramentoAtivo := true
        googleNewsAtivo := true, historicoLinks := [] }).1.map Noticia.palavras
      = [["voto"]]) ∧
    temPalavraCompleta (minusculas "voto")
      (minusculas ("Os devotos" ++ " " ++ "")) = false := by decide

/-- **C6, amended.**  Site-pipeline keywords (`verificar_palavras_chave`) do
occur whole-word (word-boundary-delimited, case-insensitive) in the matched
body text; feed-pipeline keywords (`processaGNoticia`) only occur as
case-insensitive substrings of `titulo + " " + description`.  Both keyword
lists preserve the input keyword order and are duplicate-free whenever the
configured keyword list is; the feed list is additionally nonempty. -/
theorem palavras_spec :
    (∀ (texto : String) (palavras : List String) (kw : String),
      kw ∈ verificar_palavras_chave texto palavras →
      temPalavraCompleta (minusculas kw) texto.toList = true) ∧
    (∀ (texto : String) (palavras : List String),
      List.Sublist (verificar_palavras_chave texto palavras) palavras) ∧
    (∀ (texto : String) (palavras : List String), palavras.Nodup →
      (verificar_palavras_chave texto palavras).Nodup) ∧
    (∀ (palavras : List String) (n : GNoticia) (r : Noticia),
      processaGNoticia palavras n = some r →
      r.palavras ≠ [] ∧ List.Sublist r.palavras palavras ∧
      ∀ kw ∈ r.palavras,
        contemSub (minusculas (n.titulo ++ " " ++ n.description))
          (minusculas kw) = true) ∧
    (∀ (palavras : List String) (n : GNoticia) (r : Noticia),
      processaGNoticia palavras n = some r → palavras.Nodup →
      r.palavras.Nodup) := by
  refine ⟨?_, ?_, ?_, ?_, ?_⟩
  · intro texto palavras kw hkw
    exact (List.mem_filter.mp hkw).2
  · intro texto palavras
    exact List.filter_sublist _
  · intro texto palavras hnd
    exact hnd.filter _
  · intro palavras n r hr
    unfold processaGNoticia at hr
    split at hr
    case isTrue hcond =>
      injection hr with hx
      subst hx
      exact ⟨hcond.1, List.filter_sublist _,
        fun kw hkw => (List.mem_filter.mp hkw).2⟩
    case isFalse hcond => cases hr
  · intro palavras n r hr hnd
    unfold processaGNoticia at hr
    split at hr
    case isTrue hcond =>
      injection hr with hx
      subst hx
      exact hnd.filter _
    case isFalse hcond => cases hr

/-- Concrete instances of `palavras_spec`. -/
theorem palavras_spec_witness :
    (temPalavraCompleta (minusculas "Voto") "o voto popular".toList = true) ∧
    List.Sublist (verificar_palavras_chave "o voto popular" ["Voto", "urna"])
      ["Voto", "urna"] ∧
    (verificar_palavras_chave "o voto popular" ["Voto", "urna"]).Nodup ∧
    ((Noticia.mk ⟨"http://x.com/a", "x.com", "/a"⟩ "Os devotos" none
        ["voto"] "📰 P" "Google News").palavras ≠ [] ∧
      List.Sublist (Noticia.mk ⟨"http://x.com/a", "x.com", "/a"⟩ "Os devotos"
        none ["voto"] "📰 P" "Google News").palavras ["voto"] ∧
      ∀ kw ∈ (Noticia.mk ⟨"http://x.com/a", "x.com", "/a"⟩ "Os devotos" none
        ["voto"] "📰 P" "Google News").palavras,
        contemSub
          (minusculas ((GNoticia.mk "Os devotos"
              ⟨"http://x.com/a", "x.com", "/a"⟩ "P" none "").titulo ++ " " ++
            (GNoticia.mk "Os devotos" ⟨"http://x.com/a", "x.com", "/a"⟩ "P"
              none "").description))
          (minusculas kw) = true) :=
  ⟨palavras_spec.1 "o voto popular" ["Voto", "urna"] "Voto" (by decide),
   palavras_spec.2.1 "o voto popular" ["Voto", "urna"],
   palavras_spec.2.2.1 "o voto popular" ["Voto", "urna"] (by decide),
   palavras_spec.2.2.2.1 ["voto"]
     (GNoticia.mk "Os devotos" ⟨"http://x.com/a", "x.com", "/a"⟩ "P" none "")
     _ (by decide)⟩

/-! ## Fold infrastructure for the pass theorems (C1, C2, C7) -/

theorem bool_eq_false {b : Bool} (h : ¬ b = true) : b = false := by
  cases b
  · rfl
  · exact absurd rfl h

theorem contaUrl_append (u : String) (a b : List Noticia) :
    contaUrl u (a ++ b) = contaUrl u a + contaUrl u b := by
  simp [contaUrl, List.filter_append]

theorem contaUrl_single (u : String) (n : Noticia) :
    contaUrl u [n] = if n.url.raw == u then 1 else 0 := by
  by_cases hn : (n.url.raw == u) = true
  · simp [contaUrl, hn]
  · simp [contaUrl, bool_eq_false hn]

theorem foldl_invariante {σ α : Type _} (Inv : σ → Prop) (f : σ → α → σ) :
    ∀ (l : List α) (st : σ), (∀ s a, Inv s → Inv (f s a)) → Inv st →
      Inv (l.foldl f st)
  | [], _, _, h0 => h0
  | a :: l, st, hstep, h0 =>
    foldl_invariante Inv f l (f st a) hstep (hstep st a h0)

theorem foldl_cresce {α : Type _}
    (f : List Noticia × Historico → α → List Noticia × Historico)
    (hgrow : ∀ st a, ∀ kv ∈ st.2, kv ∈ (f st a).2) :
    ∀ (l : List α) (st : List Noticia × Historico),
      ∀ kv ∈ st.2, kv ∈ (l.foldl f st).2 := by
  intro l
  induction l with
  | nil => intro st kv hkv; exact hkv
  | cons a rest ih =>
    intro st kv hkv
    rw [List.foldl_cons]
    exact ih (f st a) kv (hgrow st a kv hkv)

theorem foldl_deslocamento {α : Type _}
    (f : List Noticia × Historico → α → List Noticia × Historico)
    (hf : ∀ out h a, f (out, h) a =
      (out ++ (f ([], h) a).1, (f ([], h) a).2)) :
    ∀ (l : List α) (out : List Noticia) (h : Historico),
      l.foldl f (out, h) =
        (out ++ (l.foldl f ([], h)).1, (l.foldl f ([], h)).2) := by
  intro l
  induction l with
  | nil => intro out h; simp
  | cons a l ih =>
    intro out h
    have h1 := hf out h a
    rcases hfa : f ([], h) a with ⟨d, h'⟩
    rw [hfa] at h1
    rw [List.foldl_cons, List.foldl_cons, h1, hfa, ih, ih d h',
      List.append_assoc]

theorem foldl_fixo {α : Type _}
    (f : List Noticia × Historico → α → List Noticia × Historico)
    (h : Historico) :
    ∀ (l : List α),
      (∀ (x : List Noticia) (a : α), a ∈ l → f (x, h) a = (x, h)) →
      ∀ out, l.foldl f (out, h) = (out, h)
  | [], _, _ => rfl
  | a :: rest, hfix, out => by
    rw [List.foldl_cons, hfix out a (List.mem_cons_self _ _)]
    exact foldl_fixo f h rest
      (fun x b hb => hfix x b (List.mem_cons_of_mem _ hb)) out

theorem foldl_cobertura {α : Type _} (P : Historico → α → Prop)
    (f : List Noticia × Historico → α → List Noticia × Historico)
    (hgrow : ∀ st a, ∀ kv ∈ st.2, kv ∈ (f st a).2)
    (hmono : ∀ (a : α) {h h' : Historico},
      (∀ kv ∈ h, kv ∈ h') → P h a → P h' a)
    (hstep : ∀ st a, P (f st a).2 a) :
    ∀ (l : List α) (st : List Noticia × Historico) (a : α), a ∈ l →
      P ((l.foldl f st).2) a := by
  intro l
  induction l with
  | nil => intro st a ha; cases ha
  | cons b rest ih =>
    intro st a ha
    rw [List.foldl_cons]
    rcases List.mem_cons.mp ha with rfl | ha'
    · exact hmono a (fun kv hkv => foldl_cresce f hgrow rest (f st a) kv hkv)
        (hstep st a)
    · exact ih (f st b) a ha'

/-! ### Case analyses of the two per-candidate steps -/

theorem monitorar_casos (inp : PassInput) (url : Url) (palavras : List String)
    (h : Historico) :
    (morto inp palavras h url ∧
      monitorar_noticia_especifica inp url palavras h = (none, h)) ∨
    (ja_foi_notificado url h = false ∧
      ∃ md, inp.metaPagina url = some md ∧
        eh_noticia_recente inp.hoje md.dataPublicacao = true ∧
        verificar_palavras_chave md.texto palavras ≠ [] ∧
        monitorar_noticia_especifica inp url palavras h =
          (some { url := url
                  titulo := md.titulo
                  dataPublicacao := md.dataPublicacao
                  palavras := verificar_palavras_chave md.texto palavras
                  fonteNome := extrair_nome_fonte url
                  secao := identificar_secao_url url.raw },
           adicionar_ao_historico url md.dataPublicacao
             (identificar_secao_url url.raw) inp.agora h)) := by
  by_cases hj : ja_foi_notificado url h = true
  · exact Or.inl ⟨Or.inl hj, by unfold monitorar_noticia_especifica; simp [hj]⟩
  · have hj' := bool_eq_false hj
    cases hm : inp.metaPagina url with
    | none =>
      exact Or.inl ⟨Or.inr (Or.inl hm),
        by unfold monitorar_noticia_especifica; simp [hj', hm]⟩
    | some md =>
      cases hr : eh_noticia_recente inp.hoje md.dataPublicacao with
      | false =>
        exact Or.inl ⟨Or.inr (Or.inr ⟨md, hm, Or.inl hr⟩),
          by unfold monitorar_noticia_especifica; simp [hj', hm, hr]⟩
      | true =>
        by_cases he : verificar_palavras_chave md.texto palavras = []
        · exact Or.inl ⟨Or.inr (Or.inr ⟨md, hm, Or.inr he⟩),
            by unfold monitorar_noticia_especifica; simp [hj', hm, hr, he]⟩
        · exact Or.inr ⟨hj', md, rfl, hr, he,
            by unfold monitorar_noticia_especifica; simp [hj', hm, hr, he]⟩

theorem morto_mono {inp : PassInput} {palavras : List String}
    {h h' : Historico} {url : Url} (hsub : ∀ kv ∈ h, kv ∈ h')
    (hm : morto inp palavras h url) : morto inp palavras h' url := by
  rcases hm with hj | hrest
  · exact Or.inl (ja_foi_mono hsub hj)
  · exact Or.inr hrest

theorem monitorar_de_morto {inp : PassInput} {palavras : List String}
    {h : Historico} {url : Url} (hm : morto inp palavras h url) :
    monitorar_noticia_especifica inp url palavras h = (none, h) := by
  rcases monitorar_casos inp url palavras h with ⟨_, heq⟩ |
    ⟨hj, md, hmd, hr, he, _⟩
  · exact heq
  · exfalso
    rcases hm with hj' | hn | ⟨md', hmd', hr' | he'⟩
    · rw [hj'] at hj; cases hj
    · rw [hn] at hmd; cases hmd
    · rw [hmd'] at hmd; injection hmd with hmd; subst hmd
      rw [hr'] at hr; cases hr
    · rw [hmd'] at hmd; injection hmd with hmd; subst hmd
      exact he he'

theorem passoGoogle_casos (agora : Int) (st : List Noticia × Historico)
    (n : Noticia) :
    (ja_foi_notificado n.url st.2 = true ∧ passoGoogle agora st n = st) ∨
    (ja_foi_notificado n.url st.2 = false ∧
      passoGoogle agora st n = (st.1 ++ [n],
        adicionar_ao_historico n.url n.dataPublicacao n.secao agora st.2)) := by
  by_cases hj : ja_foi_notificado n.url st.2 = true
  · exact Or.inl ⟨hj, by unfold passoGoogle; simp [hj]⟩
  · have hj' := bool_eq_false hj
    exact Or.inr ⟨hj', by unfold passoGoogle; simp [hj']⟩

theorem passoLink_casos (inp : PassInput) (palavras : List String)
    (st : List Noticia × Historico) (url : Url) :
    (morto inp palavras st.2 url ∧
      passoLink inp palavras st url = (st.1, st.2)) ∨
    (ja_foi_notificado url st.2 = false ∧
      ∃ (n : Noticia) (d : Option Int) (s : String), n.url = url ∧
        passoLink inp palavras st url =
          (st.1 ++ [n], adicionar_ao_historico url d s inp.agora st.2)) := by
  rcases monitorar_casos inp url palavras st.2 with ⟨hm, heq⟩ |
    ⟨hj, md, hmd, hr, he, heq⟩
  · exact Or.inl ⟨hm, by unfold passoLink; rw [heq]⟩
  · refine Or.inr ⟨hj,
      { url := url
        titulo := md.titulo
        dataPublicacao := md.dataPublicacao
        palavras := verificar_palavras_chave md.texto palavras
        fonteNome := extrair_nome_fonte url
        secao := identificar_secao_url url.raw },
      md.dataPublicacao, identificar_secao_url url.raw, rfl, ?_⟩
    unfold passoLink
    rw [heq]

/-! ### Step lemmas: emission counting, key retention, history growth -/

theorem passoGoogle_conta (u : String) (agora : Int)
    (st : List Noticia × Historico) (n : Noticia) (hi : InvConta u st) :
    InvConta u (passoGoogle agora st n) := by
  unfold InvConta at hi ⊢
  rcases passoGoogle_casos agora st n with ⟨hj, heq⟩ | ⟨hj, heq⟩
  · rw [heq]; exact hi
  · rw [heq]
    rcases hi with ⟨h1, h2⟩
    by_cases hu : n.url.raw = u
    · have hne : temChave u st.2 = false := by
        rw [← hu]; exact temChave_eq_false hj
      have hzero : contaUrl u st.1 = 0 := by
        by_contra hc
        rw [h2 (Nat.one_le_iff_ne_zero.mpr hc)] at hne
        cases hne
      constructor
      · rw [contaUrl_append, hzero, contaUrl_single,
          if_pos (beq_iff_eq.mpr hu)]
      · intro _
        have := temChave_adicionar_self n.url n.dataPublicacao n.secao agora
          st.2
        rw [hu] at this
        exact this
    · have hu' : (n.url.raw == u) = false := beq_eq_false_iff_ne.mpr hu
      constructor
      · rw [contaUrl_append, contaUrl_single, if_neg (by simp [hu'])]
        omega
      · intro hone
        rw [contaUrl_append, contaUrl_single, if_neg (by simp [hu'])] at hone
        exact temChave_adicionar_of (h2 (by omega))

theorem passoGoogle_zero (u : String) (agora : Int)
    (st : List Noticia × Historico) (n : Noticia) (hi : InvZero u st) :
    InvZero u (passoGoogle agora st n) := by
  unfold InvZero at hi ⊢
  rcases passoGoogle_casos agora st n with ⟨hj, heq⟩ | ⟨hj, heq⟩
  · rw [heq]; exact hi
  · rw [heq]
    by_cases hu : n.url.raw = u
    · exfalso
      have : temChave n.url.raw st.2 = true := by rw [hu]; exact hi.1
      rw [ja_foi_of_temChave this] at hj
      cases hj
    · refine ⟨temChave_adicionar_of hi.1, ?_⟩
      rw [contaUrl_append, contaUrl_single,
        if_neg (by simp [beq_eq_false_iff_ne.mpr hu]), hi.2]

theorem passoGoogle_cresce (agora : Int) (st : List Noticia × Historico)
    (n : Noticia) : ∀ kv ∈ st.2, kv ∈ (passoGoogle agora st n).2 := by
  intro kv hkv
  rcases passoGoogle_casos agora st n with ⟨_, heq⟩ | ⟨hj, heq⟩
  · rw [heq]; exact hkv
  · rw [heq]
    exact mem_adicionar (temChave_eq_false hj) hkv

theorem passoLink_conta (u : String) (inp : PassInput)
    (palavras : List String) (st : List Noticia × Historico) (url : Url)
    (hi : InvConta u st) : InvConta u (passoLink inp palavras st url) := by
  unfold InvConta at hi ⊢
  rcases passoLink_casos inp palavras st url with ⟨_, heq⟩ |
    ⟨hj, n, d, s, hn, heq⟩
  · rw [heq]; exact hi
  · rw [heq]
    rcases hi with ⟨h1, h2⟩
    by_cases hu : url.raw = u
    · have hne : temChave u st.2 = false := by
        rw [← hu]; exact temChave_eq_false hj
      have hzero : contaUrl u st.1 = 0 := by
        by_contra hc
        rw [h2 (Nat.one_le_iff_ne_zero.mpr hc)] at hne
        cases hne
      constructor
      · rw [contaUrl_append, hzero, contaUrl_single,
          if_pos (beq_iff_eq.mpr (by rw [hn, hu]))]
      · intro _
        have := temChave_adicionar_self url d s inp.agora st.2
        rw [hu] at this
        exact this
    · have hu' : (n.url.raw == u) = false := by
        rw [hn]; exact beq_eq_false_iff_ne.mpr hu
      constructor
      · rw [contaUrl_append, contaUrl_single, if_neg (by simp [hu'])]
        omega
      · intro hone
        rw [contaUrl_append, contaUrl_single, if_neg (by simp [hu'])] at hone
        exact temChave_adicionar_of (h2 (by omega))

theorem passoLink_zero (u : String) (inp : PassInput)
    (palavras : List String) (st : List Noticia × Historico) (url : Url)
    (hi : InvZero u st) : InvZero u (passoLink inp palavras st url) := by
  unfold InvZero at hi ⊢
  rcases passoLink_casos inp palavras st url with ⟨_, heq⟩ |
    ⟨hj, n, d, s, hn, heq⟩
  · rw [heq]; exact hi
  · rw [heq]
    by_cases hu : url.raw = u
    · exfalso
      have : temChave url.raw st.2 = true := by rw [hu]; exact hi.1
      rw [ja_foi_of_temChave this] at hj
      cases hj
    · refine ⟨temChave_adicionar_of hi.1, ?_⟩
      have hu' : (n.url.raw == u) = false := by
        rw [hn]; exact beq_eq_false_iff_ne.mpr hu
      rw [contaUrl_append, contaUrl_single, if_neg (by simp [hu']), hi.2]

theorem passoLink_cresce (inp : PassInput) (palavras : List String)
    (st : List Noticia × Historico) (url : Url) :
    ∀ kv ∈ st.2, kv ∈ (passoLink inp palavras st url).2 := by
  intro kv hkv
  rcases passoLink_casos inp palavras st url with ⟨_, heq⟩ |
    ⟨hj, n, d, s, _, heq⟩
  · rw [heq]; exact hkv
  · rw [heq]
    exact mem_adicionar (temChave_eq_false hj) hkv

theorem passoSecao_conta (u : String) (inp : PassInput)
    (palavras : List String) (st : List Noticia × Historico) (sec : Secao)
    (hi : InvConta u st) : InvConta u (passoSecao inp palavras st sec) := by
  unfold passoSecao
  split
  · exact hi
  · exact foldl_invariante (InvConta u) _ sec.links st
      (fun s a hs => passoLink_conta u inp palavras s a hs) hi

theorem passoSecao_zero (u : String) (inp : PassInput)
    (palavras : List String) (st : List Noticia × Historico) (sec : Secao)
    (hi : InvZero u st) : InvZero u (passoSecao inp palavras st sec) := by
  unfold passoSecao
  split
  · exact hi
  · exact foldl_invariante (InvZero u) _ sec.links st
      (fun s a hs => passoLink_zero u inp palavras s a hs) hi

theorem passoSecao_cresce (inp : PassInput) (palavras : List String)
    (st : List Noticia × Historico) (sec : Secao) :
    ∀ kv ∈ st.2, kv ∈ (passoSecao inp palavras st sec).2 := by
  unfold passoSecao
  split
  · exact fun kv hkv => hkv
  · exact foldl_cresce _ (passoLink_cresce inp palavras) sec.links st

theorem passoSite_conta (u : String) (inp : PassInput)
    (palavras : List String) (st : List Noticia × Historico)
    (siteUrl : String) (hi : InvConta u st) :
    InvConta u (passoSite inp palavras st siteUrl) := by
  unfold passoSite
  split
  · exact hi
  · exact foldl_invariante (InvConta u) _ _ st
      (fun s a hs => passoSecao_conta u inp palavras s a hs) hi

theorem passoSite_zero (u : String) (inp : PassInput)
    (palavras : List String) (st : List Noticia × Historico)
    (siteUrl : String) (hi : InvZero u st) :
    InvZero u (passoSite inp palavras st siteUrl) := by
  unfold passoSite
  split
  · exact hi
  · exact foldl_invariante (InvZero u) _ _ st
      (fun s a hs => passoSecao_zero u inp palavras s a hs) hi

theorem passoSite_cresce (inp : PassInput) (palavras : List String)
    (st : List Noticia × Historico) (siteUrl : String) :
    ∀ kv ∈ st.2, kv ∈ (passoSite inp palavras st siteUrl).2 := by
  unfold passoSite
  split
  · exact fun kv hkv => hkv
  · exact foldl_cresce _ (passoSecao_cresce inp palavras) _ st

/-! ### Shift lemmas: steps only append to the output list -/

theorem passoGoogle_desloca (agora : Int) :
    ∀ (out : List Noticia) (h : Historico) (n : Noticia),
      passoGoogle agora (out, h) n =
        (out ++ (passoGoogle agora ([], h) n).1,
         (passoGoogle agora ([], h) n).2) := by
  intro out h n
  unfold passoGoogle
  by_cases hj : ja_foi_notificado n.url h = true
  · simp [hj]
  · simp [bool_eq_false hj]

theorem passoLink_desloca (inp : PassInput) (palavras : List String) :
    ∀ (out : List Noticia) (h : Historico) (url : Url),
      passoLink inp palavras (out, h) url =
        (out ++ (passoLink inp palavras ([], h) url).1,
         (passoLink inp palavras ([], h) url).2) := by
  intro out h url
  unfold passoLink
  rcases hm : monitorar_noticia_especifica inp url palavras h with ⟨r, h'⟩
  cases r <;> simp

theorem passoSecao_desloca (inp : PassInput) (palavras : List String) :
    ∀ (out : List Noticia) (h : Historico) (sec : Secao),
      passoSecao inp palavras (out, h) sec =
        (out ++ (passoSecao inp palavras ([], h) sec).1,
         (passoSecao inp palavras ([], h) sec).2) := by
  intro out h sec
  unfold passoSecao
  split
  · simp
  · exact foldl_deslocamento _ (passoLink_desloca inp palavras) sec.links out h

theorem passoSite_desloca (inp : PassInput) (palavras : List String) :
    ∀ (out : List Noticia) (h : Historico) (siteUrl : String),
      passoSite inp palavras (out, h) siteUrl =
        (out ++ (passoSite inp palavras ([], h) siteUrl).1,
         (passoSite inp palavras ([], h) siteUrl).2) := by
  intro out h siteUrl
  unfold passoSite
  split
  · simp
  · exact foldl_deslocamento _ (passoSecao_desloca inp palavras) _ out h

/-! ### Coverage: after a fold, every processed candidate is dead -/

theorem cobertura_google (agora : Int) (ns : List Noticia)
    (st : List Noticia × Historico) :
    ∀ n ∈ ns,
      ja_foi_notificado n.url ((ns.foldl (passoGoogle agora) st).2) = true := by
  intro n hn
  refine foldl_cobertura (fun h n => ja_foi_notificado n.url h = true)
    (passoGoogle agora) (passoGoogle_cresce agora) ?_ ?_ ns st n hn
  · intro a h h' hsub hp
    exact ja_foi_mono hsub hp
  · intro st0 a
    rcases passoGoogle_casos agora st0 a with ⟨hj, heq⟩ | ⟨hj, heq⟩
    · rw [heq]; exact hj
    · rw [heq]
      exact ja_foi_of_temChave (temChave_adicionar_self _ _ _ _ _)

theorem cobertura_links (inp : PassInput) (palavras : List String)
    (links : List Url) (st : List Noticia × Historico) :
    ∀ l ∈ links,
      morto inp palavras ((links.foldl (passoLink inp palavras) st).2) l := by
  intro l hl
  refine foldl_cobertura (morto inp palavras) (passoLink inp palavras)
    (passoLink_cresce inp palavras) ?_ ?_ links st l hl
  · intro a h h' hsub hp
    exact morto_mono hsub hp
  · intro st0 a
    rcases passoLink_casos inp palavras st0 a with ⟨hm, heq⟩ |
      ⟨hj, n, d, s, hn, heq⟩
    · rw [heq]; exact hm
    · rw [heq]
      exact Or.inl (ja_foi_of_temChave (temChave_adicionar_self _ _ _ _ _))

theorem cobertura_secoes (inp : PassInput) (palavras : List String)
    (secs : List Secao) (st : List Noticia × Historico) :
    ∀ sec ∈ secs, sec.falha = false →
      ∀ l ∈ sec.links,
        morto inp palavras ((secs.foldl (passoSecao inp palavras) st).2) l := by
  intro sec hsec
  refine foldl_cobertura
    (fun h sec => sec.falha = false → ∀ l ∈ sec.links, morto inp palavras h l)
    (passoSecao inp palavras) (passoSecao_cresce inp palavras) ?_ ?_ secs st
    sec hsec
  · intro a h h' hsub hp hf l hl
    exact morto_mono hsub (hp hf l hl)
  · intro st0 a hf
    have heq : passoSecao inp palavras st0 a =
        a.links.foldl (passoLink inp palavras) st0 := by
      unfold passoSecao
      rw [if_neg (by simp [hf])]
    rw [heq]
    exact cobertura_links inp palavras a.links st0

theorem cobertura_sites (inp : PassInput) (palavras : List String)
    (sites : List String) (st : List Noticia × Historico) :
    ∀ s ∈ sites, (inp.siteData s).falha = false →
      ∀ sec ∈ (inp.siteData s).secoes, sec.falha = false →
        ∀ l ∈ sec.links,
          morto inp palavras ((sites.foldl (passoSite inp palavras) st).2) l := by
  intro s hs
  refine foldl_cobertura
    (fun h s => (inp.siteData s).falha = false →
      ∀ sec ∈ (inp.siteData s).secoes, sec.falha = false →
        ∀ l ∈ sec.links, morto inp palavras h l)
    (passoSite inp palavras) (passoSite_cresce inp palavras) ?_ ?_ sites st
    s hs
  · intro a h h' hsub hp hf sec hsec hsf l hl
    exact morto_mono hsub (hp hf sec hsec hsf l hl)
  · intro st0 a hf
    have heq : passoSite inp palavras st0 a =
        (inp.siteData a).secoes.foldl (passoSecao inp palavras) st0 := by
      unfold passoSite
      rw [if_neg (by simp [hf])]
    rw [heq]
    exact cobertura_secoes inp palavras _ st0

/-! ### Fixed points: dead candidates leave the state unchanged -/

theorem passoGoogle_fixo (agora : Int) (x : List Noticia) (h : Historico)
    (n : Noticia) (hj : ja_foi_notificado n.url h = true) :
    passoGoogle agora (x, h) n = (x, h) := by
  unfold passoGoogle
  simp [hj]

theorem passoLink_fixo (inp : PassInput) (palavras : List String)
    (x : List Noticia) (h : Historico) (url : Url)
    (hm : morto inp palavras h url) :
    passoLink inp palavras (x, h) url = (x, h) := by
  unfold passoLink
  rw [monitorar_de_morto hm]

theorem passoSecao_fixo (inp : PassInput) (palavras : List String)
    (x : List Noticia) (h : Historico) (sec : Secao)
    (hm : sec.falha = false → ∀ l ∈ sec.links, morto inp palavras h l) :
    passoSecao inp palavras (x, h) sec = (x, h) := by
  unfold passoSecao
  cases hf : sec.falha
  · rw [if_neg (by simp)]
    exact foldl_fixo _ h sec.links
      (fun y l hl => passoLink_fixo inp palavras y h l (hm hf l hl)) x
  · rw [if_pos rfl]

theorem passoSite_fixo (inp : PassInput) (palavras : List String)
    (x : List Noticia) (h : Historico) (siteUrl : String)
    (hm : (inp.siteData siteUrl).falha = false →
      ∀ sec ∈ (inp.siteData siteUrl).secoes, sec.falha = false →
        ∀ l ∈ sec.links, morto inp palavras h l) :
    passoSite inp palavras (x, h) siteUrl = (x, h) := by
  unfold passoSite
  cases hf : (inp.siteData siteUrl).falha
  · rw [if_neg (by simp)]
    exact foldl_fixo _ h _
      (fun y sec hsec => passoSecao_fixo inp palavras y h sec
        (fun hsf l hl => hm hf sec hsec hsf l hl)) x
  · rw [if_pos rfl]

/-! ### Phase- and body-level lemmas -/

theorem invConta_base (u : String) (h : Historico) : InvConta u ([], h) := by
  unfold InvConta contaUrl
  simp

theorem invZero_base (u : String) (h : Historico)
    (hk : temChave u h = true) : InvZero u ([], h) := by
  unfold InvZero contaUrl
  simp [hk]

theorem faseG_conta (u : String) (inp : PassInput) (cfg1 : Config) :
    InvConta u (faseG inp cfg1) := by
  unfold faseG
  split
  · unfold faseGoogle
    split
    · exact invConta_base u _
    · exact foldl_invariante (InvConta u) _ _ ([], cfg1.historicoLinks)
        (fun s a hs => passoGoogle_conta u inp.agora s a hs)
        (invConta_base u _)
  · exact invConta_base u _

theorem faseG_zero (u : String) (inp : PassInput) (cfg1 : Config)
    (hk : temChave u cfg1.historicoLinks = true) :
    InvZero u (faseG inp cfg1) := by
  unfold faseG
  split
  · unfold faseGoogle
    split
    · exact invZero_base u _ hk
    · exact foldl_invariante (InvZero u) _ _ ([], cfg1.historicoLinks)
        (fun s a hs => passoGoogle_zero u inp.agora s a hs)
        (invZero_base u _ hk)
  · exact invZero_base u _ hk

theorem faseG_cresce (inp : PassInput) (cfg1 : Config) :
    ∀ kv ∈ cfg1.historicoLinks, kv ∈ (faseG inp cfg1).2 := by
  unfold faseG
  split
  · unfold faseGoogle
    split
    · exact fun kv hkv => hkv
    · exact foldl_cresce _ (passoGoogle_cresce inp.agora) _
        ([], cfg1.historicoLinks)
  · exact fun kv hkv => hkv

theorem sites_cresce (inp : PassInput) (palavras : List String)
    (sites : List String) (h : Historico) :
    ∀ kv ∈ h, kv ∈ (faseSites inp palavras sites h).2 := by
  unfold faseSites
  exact foldl_cresce _ (passoSite_cresce inp palavras) sites ([], h)

theorem corpo_desloca (inp : PassInput) (cfg1 : Config) :
    cfg1.sitesMonitorados.foldl (passoSite inp cfg1.palavrasChave)
        (faseG inp cfg1) =
      ((faseG inp cfg1).1 ++
        (faseSites inp cfg1.palavrasChave cfg1.sitesMonitorados
          (faseG inp cfg1).2).1,
       (faseSites inp cfg1.palavrasChave cfg1.sitesMonitorados
         (faseG inp cfg1).2).2) :=
  foldl_deslocamento (passoSite inp cfg1.palavrasChave)
    (passoSite_desloca inp cfg1.palavrasChave) cfg1.sitesMonitorados
    (faseG inp cfg1).1 (faseG inp cfg1).2

theorem corpo_conta (u : String) (inp : PassInput) (cfg1 : Config) :
    contaUrl u (corpoPass inp cfg1).1 ≤ 1 ∧
    (1 ≤ contaUrl u (corpoPass inp cfg1).1 →
      temChave u (corpoPass inp cfg1).2 = true) := by
  have hs := foldl_invariante (InvConta u) (passoSite inp cfg1.palavrasChave)
    cfg1.sitesMonitorados (faseG inp cfg1)
    (fun s a hsa => passoSite_conta u inp cfg1.palavrasChave s a hsa)
    (faseG_conta u inp cfg1)
  rw [corpo_desloca inp cfg1] at hs
  exact hs

theorem corpo_zero (u : String) (inp : PassInput) (cfg1 : Config)
    (hk : temChave u cfg1.historicoLinks = true) :
    temChave u (corpoPass inp cfg1).2 = true ∧
    contaUrl u (corpoPass inp cfg1).1 = 0 := by
  have hs := foldl_invariante (InvZero u) (passoSite inp cfg1.palavrasChave)
    cfg1.sitesMonitorados (faseG inp cfg1)
    (fun s a hsa => passoSite_zero u inp cfg1.palavrasChave s a hsa)
    (faseG_zero u inp cfg1 hk)
  rw [corpo_desloca inp cfg1] at hs
  exact hs

theorem corpo_cresce (inp : PassInput) (cfg1 : Config) :
    ∀ kv ∈ cfg1.historicoLinks, kv ∈ (corpoPass inp cfg1).2 := by
  intro kv hkv
  exact sites_cresce inp cfg1.palavrasChave cfg1.sitesMonitorados
    (faseG inp cfg1).2 kv (faseG_cresce inp cfg1 kv hkv)

theorem corpo_cobertura_google (inp : PassInput) (cfg1 : Config)
    (fd : List (Option (List GNoticia))) (hga : cfg1.googleNewsAtivo = true)
    (hfd : inp.feedData = some fd) :
    ∀ n ∈ buscar_noticias_google_news cfg1.palavrasChave fd,
      ja_foi_notificado n.url (corpoPass inp cfg1).2 = true := by
  intro n hn
  have h1 : ja_foi_notificado n.url (faseG inp cfg1).2 = true := by
    unfold faseG
    rw [if_pos hga]
    unfold faseGoogle
    rw [hfd]
    exact cobertura_google inp.agora _ ([], cfg1.historicoLinks) n hn
  exact ja_foi_mono
    (fun kv hkv => sites_cresce inp cfg1.palavrasChave cfg1.sitesMonitorados
      (faseG inp cfg1).2 kv hkv) h1

theorem corpo_cobertura_sites (inp : PassInput) (cfg1 : Config) :
    ∀ s ∈ cfg1.sitesMonitorados, (inp.siteData s).falha = false →
      ∀ sec ∈ (inp.siteData s).secoes, sec.falha = false →
        ∀ l ∈ sec.links,
          morto inp cfg1.palavrasChave (corpoPass inp cfg1).2 l :=
  cobertura_sites inp cfg1.palavrasChave cfg1.sitesMonitorados
    ([], (faseG inp cfg1).2)

theorem corpo_fixo (inp : PassInput) (cfg1 : Config)
    (hg : cfg1.googleNewsAtivo = true → ∀ fd, inp.feedData = some fd →
      ∀ n ∈ buscar_noticias_google_news cfg1.palavrasChave fd,
        ja_foi_notificado n.url cfg1.historicoLinks = true)
    (hs : ∀ s ∈ cfg1.sitesMonitorados, (inp.siteData s).falha = false →
      ∀ sec ∈ (inp.siteData s).secoes, sec.falha = false →
        ∀ l ∈ sec.links, morto inp cfg1.palavrasChave cfg1.historicoLinks l) :
    corpoPass inp cfg1 = ([], cfg1.historicoLinks) := by
  have hgfix : faseG inp cfg1 = ([], cfg1.historicoLinks) := by
    unfold faseG
    cases hga : cfg1.googleNewsAtivo
    · rw [if_neg (by simp)]
    · rw [if_pos rfl]
      unfold faseGoogle
      cases hfd : inp.feedData with
      | none => rfl
      | some fd =>
        exact foldl_fixo _ _ _
          (fun x n hn => passoGoogle_fixo inp.agora x _ n (hg hga fd hfd n hn))
          []
  have hsfix : faseSites inp cfg1.palavrasChave cfg1.sitesMonitorados
      cfg1.historicoLinks = ([], cfg1.historicoLinks) := by
    unfold faseSites
    exact foldl_fixo _ _ _
      (fun x s hssite => passoSite_fixo inp cfg1.palavrasChave x _ s
        (fun hf sec hsec hsf l hl => hs s hssite hf sec hsec hsf l hl)) []
  unfold corpoPass
  rw [hgfix]
  simp only
  rw [hsfix]
  simp

/-! ### Pass-level lemmas -/

theorem executar_conta (u : String) (inp : PassInput) (cfg : Config) :
    contaUrl u (executar_monitoramento inp cfg).1 ≤ 1 ∧
    (1 ≤ contaUrl u (executar_monitoramento inp cfg).1 →
      temChave u (executar_monitoramento inp cfg).2.historicoLinks = true) := by
  unfold executar_monitoramento
  split
  · constructor <;> simp [contaUrl]
  · split
    · constructor <;> simp [contaUrl]
    · split
      · constructor <;> simp [contaUrl]
      · exact corpo_conta u inp _

theorem limpar_subconjunto {agora : Int} {h : Historico} {kv : Url × Entry}
    (hm : kv ∈ limpar_historico_antigo agora h) : kv ∈ h :=
  (List.mem_filter.mp (mem_filter_of_mem_limpar hm)).1

theorem executar_preserva (u : String) (inp : PassInput) (cfg : Config)
    (hkeep : temChave u cfg.historicoLinks = true →
      temChave u (limpar_historico_antigo inp.agora cfg.historicoLinks) = true)
    (hk : temChave u cfg.historicoLinks = true) :
    contaUrl u (executar_monitoramento inp cfg).1 = 0 ∧
    temChave u (executar_monitoramento inp cfg).2.historicoLinks = true := by
  unfold executar_monitoramento
  split
  · exact ⟨by simp [contaUrl], hk⟩
  · split
    · exact ⟨by simp [contaUrl], hk⟩
    · split
      · exact ⟨by simp [contaUrl], hk⟩
      · have hz := corpo_zero u inp
          { cfg with historicoLinks :=
              limpar_historico_antigo inp.agora cfg.historicoLinks }
          (hkeep hk)
        exact ⟨hz.2, hz.1⟩

theorem cadeia_zero (u : String) :
    ∀ (ins : List PassInput) (cfg : Config),
      preservaChave u ins cfg = true →
      temChave u cfg.historicoLinks = true →
      contaUrl u (executar_cadeia ins cfg).1 = 0 ∧
      temChave u (executar_cadeia ins cfg).2.historicoLinks = true
  | [], _, _, hk => ⟨rfl, hk⟩
  | inp :: resto, cfg, hp, hk => by
    unfold preservaChave at hp
    rw [Bool.and_eq_true] at hp
    have hp1 := hp.1
    have hp2 := hp.2
    have hkeep : temChave u cfg.historicoLinks = true →
        temChave u (limpar_historico_antigo inp.agora cfg.historicoLinks)
          = true := by
      intro h1
      rw [Bool.or_eq_true] at hp1
      rcases hp1 with hx | hx
      · simp [h1] at hx
      · exact hx
    have hpass := executar_preserva u inp cfg hkeep hk
    have ih := cadeia_zero u resto (executar_monitoramento inp cfg).2 hp2
      hpass.2
    unfold executar_cadeia
    constructor
    · rw [contaUrl_append, hpass.1, ih.1]
    · exact ih.2

/-! ## C1 — at most one notification per URL across passes -/

/-- **C1, counterexample.**  Two successive passes, four days apart, with the
same single feed item.  The first pass notifies the URL; the second pass's
pruning drops the (now expired) history entry, and the same URL is emitted
again: it appears twice across the chain, violating at-most-once. -/
theorem cadeia_cex :
    contaUrl "http://x.com/a"
      (executar_cadeia
        [ { agora := 0, hoje := 0, imediato := false
            feedData := some [some [{ titulo := "tem voto aqui"
                                      url := ⟨"http://x.com/a", "x.com", "/a"⟩
                                      publisher := "P", publishedDate := none
                                      description := "" }]]
            siteData := fun _ => ⟨true, []⟩
            metaPagina := fun _ => none },
          { agora := 345600, hoje := 4, imediato := false
            feedData := some [some [{ titulo := "tem voto aqui"
                                      url := ⟨"http://x.com/a", "x.com", "/a"⟩
                                      publisher := "P", publishedDate := none
                                      description := "" }]]
            siteData := fun _ => ⟨true, []⟩
            metaPagina := fun _ => none } ]
        { telegramOwnerId := some 1, palavrasChave := ["voto"]
          sitesMonitorados := [], monitoramentoAtivo := true
          googleNewsAtivo := true, historicoLinks := [] }).1 = 2 := by decide

/-- **C1, amended.**  Across any chain of passes, each loading the config the
previous pass persisted, a URL is emitted at most once — provided the
pruning step of each pass preserves that URL's history entry whenever
present (the entry neither ages out of the 3-day retention window nor is
evicted by the 1000-entry cap between the passes). -/
theorem cadeia_no_maximo_uma (u : String) (ins : List PassInput)
    (cfg : Config) (hp : preservaChave u ins cfg = true) :
    contaUrl u (executar_cadeia ins cfg).1 ≤ 1 := by
  induction ins generalizing cfg with
  | nil => simp [executar_cadeia, contaUrl]
  | cons inp resto ih =>
    unfold preservaChave at hp
    rw [Bool.and_eq_true] at hp
    have hp1 := hp.1
    have hp2 := hp.2
    show contaUrl u ((executar_monitoramento inp cfg).1 ++
      (executar_cadeia resto (executar_monitoramento inp cfg).2).1) ≤ 1
    rw [contaUrl_append]
    by_cases hk : temChave u cfg.historicoLinks = true
    · have hkeep : temChave u cfg.historicoLinks = true →
          temChave u (limpar_historico_antigo inp.agora cfg.historicoLinks)
            = true := by
        intro h1
        rw [Bool.or_eq_true] at hp1
        rcases hp1 with hx | hx
        · simp [h1] at hx
        · exact hx
      have hpass := executar_preserva u inp cfg hkeep hk
      have hz := cadeia_zero u resto _ hp2 hpass.2
      rw [hpass.1, hz.1]
      omega
    · have hpass := executar_conta u inp cfg
      by_cases hone : 1 ≤ contaUrl u (executar_monitoramento inp cfg).1
      · have hz := cadeia_zero u resto _ hp2 (hpass.2 hone)
        rw [hz.1]
        omega
      · have h0 : contaUrl u (executar_monitoramento inp cfg).1 = 0 := by
          omega
        rw [h0]
        simpa using ih _ hp2

/-- Concrete instance of `cadeia_no_maximo_uma`: a two-pass chain five
minutes apart, whose pruning keeps every entry. -/
theorem cadeia_no_maximo_uma_witness :
    preservaChave "http://x.com/a"
        [ { agora := 0, hoje := 0, imediato := false
            feedData := some [some [{ titulo := "tem voto aqui"
                                      url := ⟨"http://x.com/a", "x.com", "/a"⟩
                                      publisher := "P", publishedDate := none
                                      description := "" }]]
            siteData := fun _ => ⟨true, []⟩
            metaPagina := fun _ => none },
          { agora := 300, hoje := 0, imediato := false
            feedData := some [some [{ titulo := "tem voto aqui"
                                      url := ⟨"http://x.com/a", "x.com", "/a"⟩
                                      publisher := "P", publishedDate := none
                                      description := "" }]]
            siteData := fun _ => ⟨true, []⟩
            metaPagina := fun _ => none } ]
        { telegramOwnerId := some 1, palavrasChave := ["voto"]
          sitesMonitorados := [], monitoramentoAtivo := true
          googleNewsAtivo := true, historicoLinks := [] } = true ∧
    contaUrl "http://x.com/a"
      (executar_cadeia
        [ { agora := 0, hoje := 0, imediato := false
            feedData := some [some [{ titulo := "tem voto aqui"
                                      url := ⟨"http://x.com/a", "x.com", "/a"⟩
                                      publisher := "P", publishedDate := none
                                      description := "" }]]
            siteData := fun _ => ⟨true, []⟩
            metaPagina := fun _ => none },
          { agora := 300, hoje := 0, imediato := false
            feedData := some [some [{ titulo := "tem voto aqui"
                                      url := ⟨"http://x.com/a", "x.com", "/a"⟩
                                      publisher := "P", publishedDate := none
                                      description := "" }]]
            siteData := fun _ => ⟨true, []⟩
            metaPagina := fun _ => none } ]
        { telegramOwnerId := some 1, palavrasChave := ["voto"]
          sitesMonitorados := [], monitoramentoAtivo := true
          googleNewsAtivo := true, historicoLinks := [] }).1 ≤ 1 :=
  ⟨by decide, cadeia_no_maximo_uma _ _ _ (by decide)⟩

/-! ## C2 — a second pass over unchanged upstream content -/

theorem recente_transfer {h1 h2 : Int} (hle : h1 ≤ h2) {p : Option Int}
    (hf : eh_noticia_recente h1 p = false) :
    eh_noticia_recente h2 p = false := by
  cases p with
  | none => cases hf
  | some d =>
    unfold eh_noticia_recente at hf ⊢
    rw [decide_eq_false_iff_not] at hf ⊢
    omega

theorem morto_transfer {inp1 inp2 : PassInput} {palavras : List String}
    {h : Historico} {url : Url} (hmp : inp2.metaPagina = inp1.metaPagina)
    (hhoje : inp1.hoje ≤ inp2.hoje) (hm : morto inp1 palavras h url) :
    morto inp2 palavras h url := by
  rcases hm with hj | hn | ⟨md, hmd, hrec | henc⟩
  · exact Or.inl hj
  · exact Or.inr (Or.inl (by rw [hmp]; exact hn))
  · exact Or.inr (Or.inr ⟨md, by rw [hmp]; exact hmd,
      Or.inl (recente_transfer hhoje hrec)⟩)
  · exact Or.inr (Or.inr ⟨md, by rw [hmp]; exact hmd, Or.inr henc⟩)

/-- **C2, counterexample.**  Two passes with identical upstream content, the
second loading the config persisted by the first, yet the second returns a
nonempty list: the candidate was suppressed in the first pass by a history
entry two days old, and by the time of the second pass (two days later) that
entry has aged out of the retention window and is pruned, so the same
candidate is notified. -/
theorem segunda_passada_cex :
    (executar_monitoramento
      { agora := 172800, hoje := 2, imediato := false
        feedData := some [some [{ titulo := "tem voto aqui"
                                  url := ⟨"http://x.com/a", "x.com", "/a"⟩
                                  publisher := "P", publishedDate := none
                                  description := "" }]]
        siteData := fun _ => ⟨true, []⟩
        metaPagina := fun _ => none }
      (executar_monitoramento
        { agora := 0, hoje := 0, imediato := false
          feedData := some [some [{ titulo := "tem voto aqui"
                                    url := ⟨"http://x.com/a", "x.com", "/a"⟩
                                    publisher := "P", publishedDate := none
                                    description := "" }]]
          siteData := fun _ => ⟨true, []⟩
          metaPagina := fun _ => none }
        { telegramOwnerId := some 1, palavrasChave := ["voto"]
          sitesMonitorados := [], monitoramentoAtivo := true
          googleNewsAtivo := true
          historicoLinks := [(⟨"http://x.com/a", "x.com", "/a"⟩,
            ⟨some (-172800), none, "Google News"⟩)] }).2).1 ≠ [] := by decide

/-- **C2, amended.**  If a second pass runs over the config persisted by a
first pass, with identical upstream content (same feed answers, same site
data, same page metadata, same run mode), not dated before the first, and
its pruning step removes no history entry (no entry has aged out of the
retention window and the history is within the 1000-entry cap), then the
second pass returns an empty result list. -/
theorem segunda_passada_vazia (inp1 inp2 : PassInput) (cfg : Config)
    (hfd : inp2.feedData = inp1.feedData) (hsd : inp2.siteData = inp1.siteData)
    (hmp : inp2.metaPagina = inp1.metaPagina)
    (him : inp2.imediato = inp1.imediato) (hhoje : inp1.hoje ≤ inp2.hoje)
    (hprune : limpar_historico_antigo inp2.agora
        (executar_monitoramento inp1 cfg).2.historicoLinks =
      (executar_monitoramento inp1 cfg).2.historicoLinks) :
    (executar_monitoramento inp2 (executar_monitoramento inp1 cfg).2).1
      = [] := by
  by_cases hA : inp1.imediato = false ∧ cfg.monitoramentoAtivo = false
  · have h1 : executar_monitoramento inp1 cfg = ([], cfg) := by
      unfold executar_monitoramento
      rw [if_pos hA]
    rw [h1]
    unfold executar_monitoramento
    rw [if_pos ⟨by rw [him]; exact hA.1, hA.2⟩]
  · by_cases hB : cfg.telegramOwnerId = none
    · have h1 : executar_monitoramento inp1 cfg = ([], cfg) := by
        unfold executar_monitoramento
        rw [if_neg hA, if_pos hB]
      rw [h1]
      unfold executar_monitoramento
      rw [if_neg (fun hc => hA ⟨by rw [← him]; exact hc.1, hc.2⟩), if_pos hB]
    · by_cases hC : cfg.palavrasChave = []
      · have h1 : executar_monitoramento inp1 cfg = ([], cfg) := by
          unfold executar_monitoramento
          rw [if_neg hA, if_neg hB, if_pos hC]
        rw [h1]
        unfold executar_monitoramento
        rw [if_neg (fun hc => hA ⟨by rw [← him]; exact hc.1, hc.2⟩),
          if_neg hB, if_pos hC]
      · have h1 : executar_monitoramento inp1 cfg =
            ((corpoPass inp1 { cfg with historicoLinks := limpar_historico_antigo inp1.agora cfg.historicoLinks }).1,
             { cfg with historicoLinks := (corpoPass inp1 { cfg with historicoLinks := limpar_historico_antigo inp1.agora cfg.historicoLinks }).2 }) := by
          unfold executar_monitoramento
          rw [if_neg hA, if_neg hB, if_neg hC]
        rw [h1] at hprune ⊢
        have hpr : limpar_historico_antigo inp2.agora
            (corpoPass inp1 { cfg with historicoLinks := limpar_historico_antigo inp1.agora cfg.historicoLinks }).2 =
            (corpoPass inp1 { cfg with historicoLinks := limpar_historico_antigo inp1.agora cfg.historicoLinks }).2 :=
          hprune
        unfold executar_monitoramento
        rw [if_neg (fun hc => hA ⟨by rw [← him]; exact hc.1, hc.2⟩),
          if_neg hB, if_neg hC]
        show (corpoPass inp2 { cfg with historicoLinks := limpar_historico_antigo inp2.agora (corpoPass inp1 { cfg with historicoLinks := limpar_historico_antigo inp1.agora cfg.historicoLinks }).2 }).1 = []
        rw [hpr]
        have hfix := corpo_fixo inp2
          { cfg with historicoLinks := (corpoPass inp1 { cfg with historicoLinks := limpar_historico_antigo inp1.agora cfg.historicoLinks }).2 }
          (by
            intro hga fd hfd2 n hn
            have hfd1 : inp1.feedData = some fd := by
              rw [← hfd]; exact hfd2
            exact corpo_cobertura_google inp1
              { cfg with historicoLinks := limpar_historico_antigo inp1.agora cfg.historicoLinks }
              fd hga hfd1 n hn)
          (by
            intro s hsmem hf sec hsec hsf l hl
            have hf1 : (inp1.siteData s).falha = false := by
              rw [← hsd]; exact hf
            have hsec1 : sec ∈ (inp1.siteData s).secoes := by
              rw [← hsd]; exact hsec
            have hl1 : l ∈ sec.links := hl
            have hm1 := corpo_cobertura_sites inp1
              { cfg with historicoLinks := limpar_historico_antigo inp1.agora cfg.historicoLinks }
              s hsmem hf1 sec hsec1 hsf l hl1
            exact morto_transfer hmp hhoje hm1)
        rw [hfix]

/-- Concrete instance of `segunda_passada_vazia`: the same pass run twice,
five minutes apart, over an initially empty history. -/
theorem segunda_passada_vazia_witness :
    (executar_monitoramento
      { agora := 300, hoje := 0, imediato := false
        feedData := some [some [{ titulo := "tem voto aqui"
                                  url := ⟨"http://x.com/a", "x.com", "/a"⟩
                                  publisher := "P", publishedDate := none
                                  description := "" }]]
        siteData := fun _ => ⟨true, []⟩
        metaPagina := fun _ => none }
      (executar_monitoramento
        { agora := 0, hoje := 0, imediato := false
          feedData := some [some [{ titulo := "tem voto aqui"
                                    url := ⟨"http://x.com/a", "x.com", "/a"⟩
                                    publisher := "P", publishedDate := none
                                    description := "" }]]
          siteData := fun _ => ⟨true, []⟩
          metaPagina := fun _ => none }
        { telegramOwnerId := some 1, palavrasChave := ["voto"]
          sitesMonitorados := [], monitoramentoAtivo := true
          googleNewsAtivo := true, historicoLinks := [] }).2).1 = [] :=
  segunda_passada_vazia _ _ _ rfl rfl rfl rfl (by decide) (by decide)

/-! ## C7 — per-source failure isolation -/

theorem monitorar_congr {inp1 inp2 : PassInput}
    (ha : inp2.agora = inp1.agora) (hh : inp2.hoje = inp1.hoje)
    (hmp : inp2.metaPagina = inp1.metaPagina) :
    monitorar_noticia_especifica inp2 = monitorar_noticia_especifica inp1 := by
  funext url palavras h
  unfold monitorar_noticia_especifica
  rw [ha, hh, hmp]

theorem passoLink_congr {inp1 inp2 : PassInput}
    (ha : inp2.agora = inp1.agora) (hh : inp2.hoje = inp1.hoje)
    (hmp : inp2.metaPagina = inp1.metaPagina) :
    passoLink inp2 = passoLink inp1 := by
  funext palavras st url
  unfold passoLink
  rw [monitorar_congr ha hh hmp]

theorem passoSecao_congr {inp1 inp2 : PassInput}
    (ha : inp2.agora = inp1.agora) (hh : inp2.hoje = inp1.hoje)
    (hmp : inp2.metaPagina = inp1.metaPagina) :
    passoSecao inp2 = passoSecao inp1 := by
  funext palavras st sec
  unfold passoSecao
  rw [passoLink_congr ha hh hmp]

theorem passoSite_congr {inp1 inp2 : PassInput}
    (ha : inp2.agora = inp1.agora) (hh : inp2.hoje = inp1.hoje)
    (hmp : inp2.metaPagina = inp1.metaPagina)
    (hsd : inp2.siteData = inp1.siteData) :
    passoSite inp2 = passoSite inp1 := by
  funext palavras st siteUrl
  unfold passoSite
  rw [hsd, passoSecao_congr ha hh hmp]

theorem faseSites_congr {inp1 inp2 : PassInput}
    (ha : inp2.agora = inp1.agora) (hh : inp2.hoje = inp1.hoje)
    (hmp : inp2.metaPagina = inp1.metaPagina)
    (hsd : inp2.siteData = inp1.siteData) :
    faseSites inp2 = faseSites inp1 := by
  funext palavras sites h
  unfold faseSites
  rw [passoSite_congr ha hh hmp hsd]

theorem faseGoogle_congr {inp1 inp2 : PassInput}
    (ha : inp2.agora = inp1.agora) (hfd : inp2.feedData = inp1.feedData) :
    faseGoogle inp2 = faseGoogle inp1 := by
  funext palavras h
  unfold faseGoogle
  rw [ha, hfd]

theorem foldl_brutos_nones (palavras : List String) :
    ∀ (fd : List (Option (List GNoticia))) (acc : List Noticia),
      (∀ o ∈ fd, o = none) →
      fd.foldl
        (fun acc o => acc ++ (o.getD []).filterMap (processaGNoticia palavras))
        acc = acc
  | [], _, _ => rfl
  | o :: rest, acc, hall => by
    rw [List.foldl_cons]
    have ho : o = none := hall o (List.mem_cons_self _ _)
    subst ho
    simp only [Option.getD_none, List.filterMap_nil, List.append_nil]
    exact foldl_brutos_nones palavras rest acc
      (fun x hx => hall x (List.mem_cons_of_mem _ hx))

theorem buscar_nones (palavras : List String)
    (fd : List (Option (List GNoticia))) (hall : ∀ o ∈ fd, o = none) :
    buscar_noticias_google_news palavras fd = [] := by
  unfold buscar_noticias_google_news
  rw [foldl_brutos_nones palavras fd [] hall]
  rfl

theorem passoSecao_falha (inp : PassInput) (palavras : List String)
    (st : List Noticia × Historico) (sec : Secao) (hf : sec.falha = true) :
    passoSecao inp palavras st sec = st := by
  unfold passoSecao
  rw [if_pos hf]

theorem passoSite_falha (inp : PassInput) (palavras : List String)
    (st : List Noticia × Historico) (s : String)
    (hf : (inp.siteData s).falha = true) :
    passoSite inp palavras st s = st := by
  unfold passoSite
  rw [if_pos hf]

theorem faseSites_site_falha (inp : PassInput) (palavras : List String)
    (pre post : List String) (s : String)
    (hf : (inp.siteData s).falha = true) (h : Historico) :
    faseSites inp palavras (pre ++ s :: post) h =
      faseSites inp palavras (pre ++ post) h := by
  unfold faseSites
  rw [List.foldl_append, List.foldl_append, List.foldl_cons,
    passoSite_falha inp palavras _ s hf]

theorem faseSites_secao_falha {inp1 inp2 : PassInput}
    (ha : inp2.agora = inp1.agora) (hh : inp2.hoje = inp1.hoje)
    (hmp : inp2.metaPagina = inp1.metaPagina) (siteUrl : String)
    (sec : Secao) (pre post : List Secao) (b : Bool) (hsec : sec.falha = true)
    (h1 : inp1.siteData siteUrl = ⟨b, pre ++ sec :: post⟩)
    (h2 : inp2.siteData siteUrl = ⟨b, pre ++ post⟩)
    (hout : ∀ x, x ≠ siteUrl → inp2.siteData x = inp1.siteData x) :
    faseSites inp2 = faseSites inp1 := by
  have hps : passoSite inp2 = passoSite inp1 := by
    funext palavras st x
    by_cases hx : x = siteUrl
    · subst hx
      unfold passoSite
      rw [h1, h2, passoSecao_congr ha hh hmp]
      cases b
      · dsimp only
        rw [if_neg (by simp), if_neg (by simp), List.foldl_append,
          List.foldl_append, List.foldl_cons,
          passoSecao_falha inp1 palavras _ sec hsec]
      · dsimp only
        rw [if_pos rfl, if_pos rfl]
    · unfold passoSite
      rw [hout x hx, passoSecao_congr ha hh hmp]
  funext palavras sites h
  unfold faseSites
  rw [hps]

/-- **C7.**  Per-source failure isolation of a pass.
(1) If every feed keyword query raises, the pass behaves exactly like a pass
whose feed source returned no results — site results and history unaffected.
(2) Likewise when the whole feed source raises.
(3) If one configured site raises, the pass's results and history are those
of the same pass without that site.
(4) If one section of a site raises, the pass's results equal those of the
same pass with that section removed. -/
theorem isolamento_fontes :
    (∀ (inp1 inp2 : PassInput) (cfg : Config)
        (fd : List (Option (List GNoticia))),
      inp2.agora = inp1.agora → inp2.hoje = inp1.hoje →
      inp2.imediato = inp1.imediato → inp2.siteData = inp1.siteData →
      inp2.metaPagina = inp1.metaPagina →
      inp1.feedData = some fd → (∀ o ∈ fd, o = none) →
      inp2.feedData = some [] →
      executar_monitoramento inp1 cfg = executar_monitoramento inp2 cfg) ∧
    (∀ (inp1 inp2 : PassInput) (cfg : Config),
      inp2.agora = inp1.agora → inp2.hoje = inp1.hoje →
      inp2.imediato = inp1.imediato → inp2.siteData = inp1.siteData →
      inp2.metaPagina = inp1.metaPagina →
      inp1.feedData = none → inp2.feedData = some [] →
      executar_monitoramento inp1 cfg = executar_monitoramento inp2 cfg) ∧
    (∀ (inp : PassInput) (cfg : Config) (pre post : List String) (s : String),
      (inp.siteData s).falha = true →
      (executar_monitoramento inp
          { cfg with sitesMonitorados := pre ++ s :: post }).1 =
        (executar_monitoramento inp
          { cfg with sitesMonitorados := pre ++ post }).1 ∧
      (executar_monitoramento inp
          { cfg with sitesMonitorados := pre ++ s :: post }).2.historicoLinks =
        (executar_monitoramento inp
          { cfg with sitesMonitorados := pre ++ post }).2.historicoLinks) ∧
    (∀ (inp1 inp2 : PassInput) (cfg : Config) (siteUrl : String) (sec : Secao)
        (pre post : List Secao) (b : Bool),
      inp2.agora = inp1.agora → inp2.hoje = inp1.hoje →
      inp2.imediato = inp1.imediato → inp2.feedData = inp1.feedData →
      inp2.metaPagina = inp1.metaPagina →
      sec.falha = true →
      inp1.siteData siteUrl = ⟨b, pre ++ sec :: post⟩ →
      inp2.siteData siteUrl = ⟨b, pre ++ post⟩ →
      (∀ x, x ≠ siteUrl → inp2.siteData x = inp1.siteData x) →
      executar_monitoramento inp1 cfg = executar_monitoramento inp2 cfg) := by
  refine ⟨?_, ?_, ?_, ?_⟩
  · intro inp1 inp2 cfg fd ha hh him hsd hmp hfd1 hall hfd2
    have hfase : ∀ (palavras : List String) (h : Historico),
        faseGoogle inp2 palavras h = faseGoogle inp1 palavras h := by
      intro palavras h
      unfold faseGoogle
      rw [hfd1, hfd2]
      dsimp only
      rw [buscar_nones palavras fd hall]
      rfl
    have hcorpo : ∀ cfg1, corpoPass inp2 cfg1 = corpoPass inp1 cfg1 := by
      intro cfg1
      unfold corpoPass faseG
      rw [faseSites_congr ha hh hmp hsd, hfase]
    unfold executar_monitoramento
    rw [him, ha, hcorpo]
  · intro inp1 inp2 cfg ha hh him hsd hmp hfd1 hfd2
    have hfase : ∀ (palavras : List String) (h : Historico),
        faseGoogle inp2 palavras h = faseGoogle inp1 palavras h := by
      intro palavras h
      unfold faseGoogle
      rw [hfd1, hfd2]
      rfl
    have hcorpo : ∀ cfg1, corpoPass inp2 cfg1 = corpoPass inp1 cfg1 := by
      intro cfg1
      unfold corpoPass faseG
      rw [faseSites_congr ha hh hmp hsd, hfase]
    unfold executar_monitoramento
    rw [him, ha, hcorpo]
  · intro inp cfg pre post s hf
    unfold executar_monitoramento
    dsimp only
    by_cases hA : inp.imediato = false ∧ cfg.monitoramentoAtivo = false
    · rw [if_pos hA, if_pos hA]
      exact ⟨rfl, rfl⟩
    · rw [if_neg hA, if_neg hA]
      by_cases hB : cfg.telegramOwnerId = none
      · rw [if_pos hB, if_pos hB]
        exact ⟨rfl, rfl⟩
      · rw [if_neg hB, if_neg hB]
        by_cases hC : cfg.palavrasChave = []
        · rw [if_pos hC, if_pos hC]
          exact ⟨rfl, rfl⟩
        · rw [if_neg hC, if_neg hC]
          constructor
          · dsimp only
            unfold corpoPass faseG
            dsimp only
            rw [faseSites_site_falha inp cfg.palavrasChave pre post s hf]
          · dsimp only
            unfold corpoPass faseG
            dsimp only
            rw [faseSites_site_falha inp cfg.palavrasChave pre post s hf]
  · intro inp1 inp2 cfg siteUrl sec pre post b ha hh him hfd hmp hsec h1 h2
      hout
    have hsites := faseSites_secao_falha ha hh hmp siteUrl sec pre post b hsec
      h1 h2 hout
    have hcorpo : ∀ cfg1, corpoPass inp2 cfg1 = corpoPass inp1 cfg1 := by
      intro cfg1
      unfold corpoPass faseG
      rw [faseGoogle_congr ha hfd, hsites]
    unfold executar_monitoramento
    rw [him, ha, hcorpo]

/-- Concrete instances of `isolamento_fontes`: an all-raising feed equals an
empty feed; a raising site contributes nothing; a raising section is
equivalent to its absence. -/
theorem isolamento_fontes_witness :
    (executar_monitoramento
        { agora := 0, hoje := 0, imediato := true
          feedData := some [none, none]
          siteData := fun _ => ⟨true, []⟩, metaPagina := fun _ => none }
        { telegramOwnerId := some 1, palavrasChave := ["voto"]
          sitesMonitorados := [], monitoramentoAtivo := true
          googleNewsAtivo := true, historicoLinks := [] } =
      executar_monitoramento
        { agora := 0, hoje := 0, imediato := true
          feedData := some []
          siteData := fun _ => ⟨true, []⟩, metaPagina := fun _ => none }
        { telegramOwnerId := some 1, palavrasChave := ["voto"]
          sitesMonitorados := [], monitoramentoAtivo := true
          googleNewsAtivo := true, historicoLinks := [] }) ∧
    (executar_monitoramento
        { agora := 0, hoje := 0, imediato := true
          feedData := none
          siteData := fun _ => ⟨true, []⟩, metaPagina := fun _ => none }
        { telegramOwnerId := some 1, palavrasChave := ["voto"]
          sitesMonitorados := [], monitoramentoAtivo := true
          googleNewsAtivo := true, historicoLinks := [] } =
      executar_monitoramento
        { agora := 0, hoje := 0, imediato := true
          feedData := some []
          siteData := fun _ => ⟨true, []⟩, metaPagina := fun _ => none }
        { telegramOwnerId := some 1, palavrasChave := ["voto"]
          sitesMonitorados := [], monitoramentoAtivo := true
          googleNewsAtivo := true, historicoLinks := [] }) ∧
    ((executar_monitoramento
        { agora := 0, hoje := 0, imediato := true, feedData := none
          siteData := fun _ => ⟨true, []⟩, metaPagina := fun _ => none }
        { telegramOwnerId := some 1, palavrasChave := ["voto"]
          sitesMonitorados := [] ++ "http://falho.com" :: []
          monitoramentoAtivo := true, googleNewsAtivo := true
          historicoLinks := [] }).1 =
      (executar_monitoramento
        { agora := 0, hoje := 0, imediato := true, feedData := none
          siteData := fun _ => ⟨true, []⟩, metaPagina := fun _ => none }
        { telegramOwnerId := some 1, palavrasChave := ["voto"]
          sitesMonitorados := ([] : List String) ++ []
          monitoramentoAtivo := true, googleNewsAtivo := true
          historicoLinks := [] }).1) ∧
    (executar_monitoramento
        { agora := 0, hoje := 0, imediato := true, feedData := none
          siteData := fun y => if y = "http://a.com" then
              ⟨false, [⟨"quebrada", true, []⟩]⟩ else ⟨true, []⟩
          metaPagina := fun _ => none }
        { telegramOwnerId := some 1, palavrasChave := ["voto"]
          sitesMonitorados := ["http://a.com"], monitoramentoAtivo := true
          googleNewsAtivo := true, historicoLinks := [] } =
      executar_monitoramento
        { agora := 0, hoje := 0, imediato := true, feedData := none
          siteData := fun y => if y = "http://a.com" then ⟨false, []⟩
            else ⟨true, []⟩
          metaPagina := fun _ => none }
        { telegramOwnerId := some 1, palavrasChave := ["voto"]
          sitesMonitorados := ["http://a.com"], monitoramentoAtivo := true
          googleNewsAtivo := true, historicoLinks := [] }) :=
  ⟨isolamento_fontes.1 _ _ _ [none, none] rfl rfl rfl rfl rfl rfl
      (by intro o ho; simpa using ho) rfl,
   isolamento_fontes.2.1 _ _ _ rfl rfl rfl rfl rfl rfl rfl,
   (isolamento_fontes.2.2.1
      { agora := 0, hoje := 0, imediato := true, feedData := none
        siteData := fun _ => ⟨true, []⟩, metaPagina := fun _ => none }
      { telegramOwnerId := some 1, palavrasChave := ["voto"]
        sitesMonitorados := [], monitoramentoAtivo := true
        googleNewsAtivo := true, historicoLinks := [] }
      [] [] "http://falho.com" rfl).1,
   isolamento_fontes.2.2.2 _ _ _ "http://a.com" ⟨"quebrada", true, []⟩ [] []
      false rfl rfl rfl rfl rfl rfl (by decide) (by decide)
      (fun x hx => by simp [hx])⟩

end FaroFino
